import Mathlib

/-!
The RemoteFX collector (`collector/remote_fx.go`).

A shallow embedding of the RemoteFX Network / RemoteFX Graphics collector of the
WMI exporter, and theorems about what one collection pass sends to the metric
channel.

Conventions of the embedding.

* A Go `float64` is carried as its IEEE-754 bit pattern. The collector only
  copies such values from a decoded counter into a sample; it never computes
  with them, so no floating-point arithmetic is modelled.
* The metric channel `ch chan<- prometheus.Metric` is the list of metrics sent
  so far, oldest first; a send appends at the end.
* A Go panic is an explicit outcome of a run next to a normal return.
* Go strings are Lean strings (sequences of Unicode code points).
-/

set_option autoImplicit false

namespace Collector

/-! ## Values and the parts of the Prometheus client library that are used -/

/-- A Go `float64`, as the 64 bits of its IEEE-754 representation. -/
structure Float64 where
  bits : Nat
deriving DecidableEq, Repr

/-- The bit pattern of the double `12.5` (sign 0, exponent 1026, mantissa `0x9000000000000`). -/
def Float64.twelveAndAHalf : Float64 := ⟨0x4029000000000000⟩

/-- The `prometheus.ValueType` enumeration. -/
inductive ValueType where
  | CounterValue
  | GaugeValue
  | UntypedValue
deriving DecidableEq, Repr

/-- The fields of `prometheus.Desc` that the collector determines. -/
structure Desc where
  fqName : String
  help : String
  variableLabels : List String
  constLabels : List (String × String)
deriving DecidableEq, Repr

/-- A constant metric as produced by `prometheus.NewConstMetric`. -/
structure Metric where
  desc : Desc
  valType : ValueType
  val : Float64
  labelValues : List String
deriving DecidableEq, Repr

/-- The function `prometheus.BuildFQName`: joins the non-empty parts with `_`;
an empty `name` gives the empty string. -/
def BuildFQName (ns subsystem name : String) : String :=
  if name = "" then ""
  else if ns ≠ "" ∧ subsystem ≠ "" then ns ++ "_" ++ subsystem ++ "_" ++ name
  else if ns ≠ "" then ns ++ "_" ++ name
  else if subsystem ≠ "" then subsystem ++ "_" ++ name
  else name

/-- The function `prometheus.NewDesc`; a `nil` map of constant labels is the empty list. The
library also validates the metric name and the label names and stores a failure inside the
descriptor; that validation depends on the namespace constant and is not modelled. -/
def NewDesc (fqName help : String) (variableLabels : List String)
    (constLabels : List (String × String)) : Desc :=
  { fqName := fqName, help := help, variableLabels := variableLabels, constLabels := constLabels }

/-- The function `prometheus.NewConstMetric`: it fails when the number of label
values differs from the number of variable labels of the descriptor. Its other failure, a label
value that is not valid UTF-8, cannot occur for a Lean string. -/
def NewConstMetric (desc : Desc) (valueType : ValueType) (value : Float64)
    (labelValues : List String) : Except String Metric :=
  if labelValues.length ≠ desc.variableLabels.length then
    .error "inconsistent label cardinality"
  else
    .ok { desc := desc, valType := valueType, val := value, labelValues := labelValues }

/-! ## Lower-casing (`strings.ToLower`) -/

/-- The function `unicode.ToLower` of the Go standard library. For a rune up to
`unicode.MaxASCII` it adds `'a' - 'A'` to the letters `'A'..'Z'` and leaves the
rest alone; for any other rune it consults the Unicode case tables, which are
the parameter `caseTable`. -/
def unicodeToLower (caseTable : Char → Char) (r : Char) : Char :=
  if r.toNat ≤ 0x7F then
    if 'A'.toNat ≤ r.toNat ∧ r.toNat ≤ 'Z'.toNat then Char.ofNat (r.toNat + 32) else r
  else caseTable r

/-- The function `strings.ToLower`: `unicode.ToLower` applied to every rune. -/
def ToLower (caseTable : Char → Char) (s : String) : String :=
  String.mk (s.data.map (unicodeToLower caseTable))

/-! ## Counter snapshots and their decoding -/

/-- Modelled from the spec: the error of a failed fetch or decode of a counter object; the
error type is declared outside `remote_fx.go`, and `SourceUnavailable` is the only kind. -/
inductive Error where
  | SourceUnavailable (msg : String)
deriving DecidableEq, Repr

/-- Modelled from the spec: one instance of a counter object (the perflib types are declared
outside `remote_fx.go`), its name and its raw fields by name. -/
structure Instance where
  name : String
  fields : List (String × Float64)
deriving DecidableEq, Repr

/-- Modelled from the spec: a snapshot of one counter object (declared outside
`remote_fx.go`), its instances in enumeration order. -/
abbrev CounterSnapshot := List Instance

/-- Modelled from the spec: the type `ScrapeContext`, declared outside `remote_fx.go`. For an
object name, `perfObjects` is the snapshot the counter source delivered for it, or the error
with which fetching it failed. -/
structure ScrapeContext where
  perfObjects : String → Except Error CounterSnapshot

/-- Modelled from the spec: the step of `unmarshalObject` (not part of `remote_fx.go`) that
reads the raw field `tag` of an instance; the value is taken as it is, and an instance without
that field cannot be decoded. -/
def Instance.field (i : Instance) (tag : String) : Except Error Float64 :=
  match i.fields.lookup tag with
  | some v => .ok v
  | none => .error (.SourceUnavailable ("could not find counter " ++ tag ++ " on instance"))

/-- Modelled from the spec: `unmarshalObject`, which is not part of
`remote_fx.go`. A failed fetch is passed on; otherwise every instance of the
snapshot is decoded in order by `decode` (the destination type with its
`perflib` tags), and the first instance that cannot be decoded fails the whole
object. -/
def unmarshalObject {α : Type} (decode : Instance → Except Error α)
    (obj : Except Error CounterSnapshot) : Except Error (List α) :=
  match obj with
  | .error e => .error e
  | .ok insts => insts.mapM decode

/-! ## The collector and its descriptors -/

/-- The collector: one descriptor per exported metric (`type RemoteFxCollector struct`). -/
structure RemoteFxCollector where
  BaseTCPRTT : Desc
  BaseUDPRTT : Desc
  CurrentTCPBandwidth : Desc
  CurrentTCPRTT : Desc
  CurrentUDPBandwidth : Desc
  CurrentUDPRTT : Desc
  FECRate : Desc
  LossRate : Desc
  RetransmissionRate : Desc
  TCPReceivedRate : Desc
  TCPSentRate : Desc
  TotalReceivedRate : Desc
  TotalSentRate : Desc
  TotalReceivedBytes : Desc
  TotalSentBytes : Desc
  UDPPacketsReceivedPersec : Desc
  UDPPacketsSentPersec : Desc
  UDPReceivedRate : Desc
  UDPSentRate : Desc
  AverageEncodingTime : Desc
  FrameQuality : Desc
  FramesSkippedPerSecondInsufficientClientResources : Desc
  FramesSkippedPerSecondInsufficientNetworkResources : Desc
  FramesSkippedPerSecondInsufficientServerResources : Desc
  GraphicsCompressionratio : Desc
  InputFramesPerSecond : Desc
  OutputFramesPerSecond : Desc
  SourceFramesPerSecond : Desc
deriving DecidableEq, Repr

/-- The constructor `NewRemoteFx`. `Namespace` is a constant of the package declared outside
`remote_fx.go` and is a parameter here. The second component is the returned `error`. -/
def NewRemoteFx (Namespace : String) : RemoteFxCollector × Option Error :=
  let subsystem := "remote_fx"
  ({
    -- net
    BaseTCPRTT := NewDesc
      (BuildFQName Namespace subsystem "net_base_tcp_rrt")
      "Base TCP round-trip time (RTT) detected in milliseconds"
      ["session_name"]
      []
    BaseUDPRTT := NewDesc
      (BuildFQName Namespace subsystem "net_base_udp_rrt")
      "Base UDP round-trip time (RTT) detected in milliseconds."
      ["session_name"]
      []
    CurrentTCPBandwidth := NewDesc
      (BuildFQName Namespace subsystem "net_current_tcp_bandwidth")
      "TCP Bandwidth detected in thousands of bits per second (1000 bps)."
      ["session_name"]
      []
    CurrentTCPRTT := NewDesc
      (BuildFQName Namespace subsystem "net_current_tcp_rtt")
      "Average TCP round-trip time (RTT) detected in milliseconds."
      ["session_name"]
      []
    CurrentUDPBandwidth := NewDesc
      (BuildFQName Namespace subsystem "net_current_udp_bandwidth")
      "UDP Bandwidth detected in thousands of bits per second (1000 bps)."
      ["session_name"]
      []
    CurrentUDPRTT := NewDesc
      (BuildFQName Namespace subsystem "net_current_udp_rtt")
      "Average UDP round-trip time (RTT) detected in milliseconds."
      ["session_name"]
      []
    FECRate := NewDesc
      (BuildFQName Namespace subsystem "net_fec_rate")
      "Forward Error Correction (FEC) percentage"
      ["session_name"]
      []
    LossRate := NewDesc
      (BuildFQName Namespace subsystem "net_loss_rate")
      "Loss percentage"
      ["session_name"]
      []
    RetransmissionRate := NewDesc
      (BuildFQName Namespace subsystem "net_retransmission_rate")
      "Percentage of packets that have been retransmitted"
      ["session_name"]
      []
    TCPReceivedRate := NewDesc
      (BuildFQName Namespace subsystem "net_tcp_received_rate")
      "Rate in bits per second (bps) at which data is received over TCP."
      ["session_name"]
      []
    TCPSentRate := NewDesc
      (BuildFQName Namespace subsystem "net_tcp_sent_rate")
      "Rate in bits per second (bps) at which data is sent over TCP."
      ["session_name"]
      []
    TotalReceivedRate := NewDesc
      (BuildFQName Namespace subsystem "net_total_received_rate")
      "Rate in bits per second (bps) at which data is received."
      ["session_name"]
      []
    TotalSentRate := NewDesc
      (BuildFQName Namespace subsystem "net_total_sent_rate")
      "Rate in bits per second (bps) at which data is sent."
      ["session_name"]
      []
    TotalReceivedBytes := NewDesc
      (BuildFQName Namespace subsystem "net_total_received_bytes")
      "(TotalReceivedBytes)"
      ["session_name"]
      []
    TotalSentBytes := NewDesc
      (BuildFQName Namespace subsystem "net_total_sent_bytes")
      "(TotalSentBytes)"
      ["session_name"]
      []
    UDPPacketsReceivedPersec := NewDesc
      (BuildFQName Namespace subsystem "net_udp_packets_received_persec")
      "Rate in packets per second at which packets are received over UDP."
      ["session_name"]
      []
    UDPPacketsSentPersec := NewDesc
      (BuildFQName Namespace subsystem "net_udp_packets_sent_persec")
      "Rate in packets per second at which packets are sent over UDP."
      ["session_name"]
      []
    UDPReceivedRate := NewDesc
      (BuildFQName Namespace subsystem "net_udp_received_rate")
      "Rate in bits per second (bps) at which data is received over UDP."
      ["session_name"]
      []
    UDPSentRate := NewDesc
      (BuildFQName Namespace subsystem "net_udp_sent_rate")
      "Rate in bits per second (bps) at which data is sent over UDP."
      ["session_name"]
      []
    -- gfx
    AverageEncodingTime := NewDesc
      (BuildFQName Namespace subsystem "gfx_average_encoding_time")
      "Average frame encoding time in milliseconds"
      ["session_name"]
      []
    FrameQuality := NewDesc
      (BuildFQName Namespace subsystem "gfx_frame_quality")
      "Quality of the output frame expressed as a percentage of the quality of the source frame."
      ["session_name"]
      []
    FramesSkippedPerSecondInsufficientClientResources := NewDesc
      (BuildFQName Namespace subsystem "gfx_frames_skipped_persec_insufficient_clt_res")
      "Number of frames skipped per second due to insufficient client resources."
      ["session_name"]
      []
    FramesSkippedPerSecondInsufficientNetworkResources := NewDesc
      (BuildFQName Namespace subsystem "gfx_frames_skipped_persec_insufficient_net_res")
      "Number of frames skipped per second due to insufficient network resources."
      ["session_name"]
      []
    FramesSkippedPerSecondInsufficientServerResources := NewDesc
      (BuildFQName Namespace subsystem "gfx_frames_skipped_persec_insufficient_srv_res")
      "Number of frames skipped per second due to insufficient server resources."
      ["session_name"]
      []
    GraphicsCompressionratio := NewDesc
      (BuildFQName Namespace subsystem "gfx_graphics_compression_ratio")
      "Ratio of the number of bytes encoded to the number of bytes input."
      ["session_name"]
      []
    InputFramesPerSecond := NewDesc
      (BuildFQName Namespace subsystem "gfx_input_frames_persec")
      "Number of sources frames provided as input to RemoteFX graphics per second."
      ["session_name"]
      []
    OutputFramesPerSecond := NewDesc
      (BuildFQName Namespace subsystem "gfx_output_frames_persec")
      "Number of frames sent to the client per second."
      ["session_name"]
      []
    SourceFramesPerSecond := NewDesc
      (BuildFQName Namespace subsystem "gfx_source_frames_persec")
      "Number of frames composed by the source (DWM) per second."
      ["session_name"]
      []
  }, none)

/-- The decoded form of one instance (`type perflibRemoteFxNetwork struct`). -/
structure perflibRemoteFxNetwork where
  Name : String
  BaseTCPRTT : Float64
  BaseUDPRTT : Float64
  CurrentTCPBandwidth : Float64
  CurrentTCPRTT : Float64
  CurrentUDPBandwidth : Float64
  CurrentUDPRTT : Float64
  FECRate : Float64
  LossRate : Float64
  RetransmissionRate : Float64
  TCPReceivedRate : Float64
  TCPSentRate : Float64
  TotalReceivedRate : Float64
  TotalSentRate : Float64
  TotalReceivedBytes : Float64
  TotalSentBytes : Float64
  UDPPacketsReceivedPersec : Float64
  UDPPacketsSentPersec : Float64
  UDPReceivedRate : Float64
  UDPSentRate : Float64
deriving DecidableEq, Repr

/-- Modelled from the spec: what `unmarshalObject` (not part of `remote_fx.go`) does for a
single instance and the destination type `perflibRemoteFxNetwork`. Every field is read from the
raw field named by its `perflib` tag in the declaration of the struct, in field order, and
`Name` is the name of the instance. -/
def perflibRemoteFxNetwork.decode (i : Instance) : Except Error perflibRemoteFxNetwork :=
  (i.field "Base TCP RTT").bind fun vBaseTCPRTT =>
  (i.field "Base UDP RTT").bind fun vBaseUDPRTT =>
  (i.field "Current TCP Bandwidth").bind fun vCurrentTCPBandwidth =>
  (i.field "Current TCP RTT").bind fun vCurrentTCPRTT =>
  (i.field "Current UDP Bandwidth").bind fun vCurrentUDPBandwidth =>
  (i.field "Current UDP RTT").bind fun vCurrentUDPRTT =>
  (i.field "FEC Rate").bind fun vFECRate =>
  (i.field "Loss Rate").bind fun vLossRate =>
  (i.field "Retransmission Rate").bind fun vRetransmissionRate =>
  (i.field "TCP Received Rate").bind fun vTCPReceivedRate =>
  (i.field "TCP Sent Rate").bind fun vTCPSentRate =>
  (i.field "Total Received Rate").bind fun vTotalReceivedRate =>
  (i.field "Total Sent Rate").bind fun vTotalSentRate =>
  (i.field "Total Received Bytes").bind fun vTotalReceivedBytes =>
  (i.field "Total Sent Bytes").bind fun vTotalSentBytes =>
  (i.field "UDP Packets Received/sec").bind fun vUDPPacketsReceivedPersec =>
  (i.field "UDP Packets Sent/sec").bind fun vUDPPacketsSentPersec =>
  (i.field "UDP Received Rate").bind fun vUDPReceivedRate =>
  (i.field "UDP Sent Rate").bind fun vUDPSentRate =>
  .ok {
    Name := i.name
    BaseTCPRTT := vBaseTCPRTT
    BaseUDPRTT := vBaseUDPRTT
    CurrentTCPBandwidth := vCurrentTCPBandwidth
    CurrentTCPRTT := vCurrentTCPRTT
    CurrentUDPBandwidth := vCurrentUDPBandwidth
    CurrentUDPRTT := vCurrentUDPRTT
    FECRate := vFECRate
    LossRate := vLossRate
    RetransmissionRate := vRetransmissionRate
    TCPReceivedRate := vTCPReceivedRate
    TCPSentRate := vTCPSentRate
    TotalReceivedRate := vTotalReceivedRate
    TotalSentRate := vTotalSentRate
    TotalReceivedBytes := vTotalReceivedBytes
    TotalSentBytes := vTotalSentBytes
    UDPPacketsReceivedPersec := vUDPPacketsReceivedPersec
    UDPPacketsSentPersec := vUDPPacketsSentPersec
    UDPReceivedRate := vUDPReceivedRate
    UDPSentRate := vUDPSentRate
  }

/-- The decoded form of one instance (`type perflibRemoteFxGraphics struct`). -/
structure perflibRemoteFxGraphics where
  Name : String
  AverageEncodingTime : Float64
  FrameQuality : Float64
  FramesSkippedPerSecondInsufficientClientResources : Float64
  FramesSkippedPerSecondInsufficientNetworkResources : Float64
  FramesSkippedPerSecondInsufficientServerResources : Float64
  GraphicsCompressionratio : Float64
  InputFramesPerSecond : Float64
  OutputFramesPerSecond : Float64
  SourceFramesPerSecond : Float64
deriving DecidableEq, Repr

/-- Modelled from the spec: what `unmarshalObject` (not part of `remote_fx.go`) does for a
single instance and the destination type `perflibRemoteFxGraphics`. Every field is read from the
raw field named by its `perflib` tag in the declaration of the struct, in field order, and
`Name` is the name of the instance. -/
def perflibRemoteFxGraphics.decode (i : Instance) : Except Error perflibRemoteFxGraphics :=
  (i.field "Average Encoding Time").bind fun vAverageEncodingTime =>
  (i.field "Frame Quality").bind fun vFrameQuality =>
  (i.field "Frames Skipped/Second - Insufficient Server Resources").bind fun vFramesSkippedPerSecondInsufficientClientResources =>
  (i.field "Frames Skipped/Second - Insufficient Network Resources").bind fun vFramesSkippedPerSecondInsufficientNetworkResources =>
  (i.field "Frames Skipped/Second - Insufficient Client Resources").bind fun vFramesSkippedPerSecondInsufficientServerResources =>
  (i.field "Graphics Compression ratio").bind fun vGraphicsCompressionratio =>
  (i.field "Input Frames/Second").bind fun vInputFramesPerSecond =>
  (i.field "Output Frames/Second").bind fun vOutputFramesPerSecond =>
  (i.field "Source Frames/Second").bind fun vSourceFramesPerSecond =>
  .ok {
    Name := i.name
    AverageEncodingTime := vAverageEncodingTime
    FrameQuality := vFrameQuality
    FramesSkippedPerSecondInsufficientClientResources := vFramesSkippedPerSecondInsufficientClientResources
    FramesSkippedPerSecondInsufficientNetworkResources := vFramesSkippedPerSecondInsufficientNetworkResources
    FramesSkippedPerSecondInsufficientServerResources := vFramesSkippedPerSecondInsufficientServerResources
    GraphicsCompressionratio := vGraphicsCompressionratio
    InputFramesPerSecond := vInputFramesPerSecond
    OutputFramesPerSecond := vOutputFramesPerSecond
    SourceFramesPerSecond := vSourceFramesPerSecond
  }

/-! ## Running the collector -/

/-- What a run has done so far: the metrics sent on the channel, oldest first,
and the names of the counter objects it has handed to `unmarshalObject`. -/
structure State where
  sent : List Metric
  decoded : List String
deriving DecidableEq, Repr

/-- How a call ended: by returning a value or by a panic. -/
inductive Outcome (α : Type) where
  | returned (a : α)
  | panicked (msg : String)
deriving DecidableEq, Repr

/-- The result of running a piece of the collector from some state. -/
structure Run (α : Type) where
  state : State
  outcome : Outcome α
deriving DecidableEq, Repr

/-- The arguments of one statement `ch <- prometheus.MustNewConstMetric(desc, valueType, value, labelValues...)`. -/
structure Send where
  desc : Desc
  valueType : ValueType
  value : Float64
  labelValues : List String
deriving DecidableEq, Repr

/-- One statement `ch <- prometheus.MustNewConstMetric(...)`: the metric is
appended to the channel, or the statement panics when `NewConstMetric` fails. -/
def Send.run (s : Send) (st : State) : Run Unit :=
  match NewConstMetric s.desc s.valueType s.value s.labelValues with
  | .ok m => ⟨{ st with sent := st.sent ++ [m] }, .returned ()⟩
  | .error msg => ⟨st, .panicked msg⟩

/-- A sequence of send statements, run in order until one panics. -/
def runSends : List Send → State → Run Unit
  | [], st => ⟨st, .returned ()⟩
  | s :: rest, st =>
    match s.run st with
    | ⟨st1, .returned _⟩ => runSends rest st1
    | ⟨st1, .panicked msg⟩ => ⟨st1, .panicked msg⟩

/-- The statements `ch <- prometheus.MustNewConstMetric(...)` of the loop body of
`collectRemoteFXNetworkCount`, in program order, for the instance `d`. -/
def networkSends (c : RemoteFxCollector) (d : perflibRemoteFxNetwork) : List Send :=
  [ ⟨c.BaseTCPRTT, .GaugeValue, d.BaseTCPRTT, [d.Name]⟩,
    ⟨c.BaseUDPRTT, .GaugeValue, d.BaseUDPRTT, [d.Name]⟩,
    ⟨c.CurrentTCPBandwidth, .GaugeValue, d.CurrentTCPBandwidth, [d.Name]⟩,
    ⟨c.CurrentTCPRTT, .GaugeValue, d.CurrentTCPRTT, [d.Name]⟩,
    ⟨c.CurrentUDPBandwidth, .GaugeValue, d.CurrentUDPBandwidth, [d.Name]⟩,
    ⟨c.CurrentUDPRTT, .GaugeValue, d.CurrentUDPRTT, [d.Name]⟩,
    ⟨c.FECRate, .CounterValue, d.FECRate, [d.Name]⟩,
    ⟨c.LossRate, .CounterValue, d.LossRate, [d.Name]⟩,
    ⟨c.RetransmissionRate, .CounterValue, d.RetransmissionRate, [d.Name]⟩,
    ⟨c.TCPReceivedRate, .CounterValue, d.TCPReceivedRate, [d.Name]⟩,
    ⟨c.TCPSentRate, .CounterValue, d.TCPSentRate, [d.Name]⟩,
    ⟨c.TotalReceivedRate, .CounterValue, d.TotalReceivedRate, [d.Name]⟩,
    ⟨c.TotalSentRate, .CounterValue, d.TotalSentRate, [d.Name]⟩,
    ⟨c.TotalReceivedBytes, .CounterValue, d.TotalReceivedBytes, [d.Name]⟩,
    ⟨c.TotalSentBytes, .CounterValue, d.TotalSentBytes, [d.Name]⟩,
    ⟨c.UDPPacketsReceivedPersec, .CounterValue, d.UDPPacketsReceivedPersec, [d.Name]⟩,
    ⟨c.UDPPacketsSentPersec, .CounterValue, d.UDPPacketsSentPersec, [d.Name]⟩,
    ⟨c.UDPReceivedRate, .CounterValue, d.UDPReceivedRate, [d.Name]⟩,
    ⟨c.UDPSentRate, .CounterValue, d.UDPSentRate, [d.Name]⟩ ]

/-- The statements `ch <- prometheus.MustNewConstMetric(...)` of the loop body of
`collectRemoteFXGraphicsCounters`, in program order, for the instance `d`. -/
def graphicsSends (c : RemoteFxCollector) (d : perflibRemoteFxGraphics) : List Send :=
  [ ⟨c.AverageEncodingTime, .GaugeValue, d.AverageEncodingTime, [d.Name]⟩,
    ⟨c.FrameQuality, .GaugeValue, d.FrameQuality, [d.Name]⟩,
    ⟨c.FramesSkippedPerSecondInsufficientClientResources, .CounterValue, d.FramesSkippedPerSecondInsufficientClientResources, [d.Name]⟩,
    ⟨c.FramesSkippedPerSecondInsufficientNetworkResources, .CounterValue, d.FramesSkippedPerSecondInsufficientNetworkResources, [d.Name]⟩,
    ⟨c.FramesSkippedPerSecondInsufficientServerResources, .CounterValue, d.FramesSkippedPerSecondInsufficientServerResources, [d.Name]⟩,
    ⟨c.GraphicsCompressionratio, .GaugeValue, d.GraphicsCompressionratio, [d.Name]⟩,
    ⟨c.InputFramesPerSecond, .CounterValue, d.InputFramesPerSecond, [d.Name]⟩,
    ⟨c.OutputFramesPerSecond, .CounterValue, d.OutputFramesPerSecond, [d.Name]⟩,
    ⟨c.SourceFramesPerSecond, .CounterValue, d.SourceFramesPerSecond, [d.Name]⟩ ]

/-- The loop `for _, d := range dst` of `collectRemoteFXNetworkCount`. -/
def networkLoop (caseTable : Char → Char) (c : RemoteFxCollector) :
    List perflibRemoteFxNetwork → State → Run Unit
  | [], st => ⟨st, .returned ()⟩
  | d :: rest, st =>
    -- only connect metrics for remote named sessions
    let n := ToLower caseTable d.Name
    if n = "" ∨ n = "services" ∨ n = "console" then
      networkLoop caseTable c rest st
    else
      match runSends (networkSends c d) st with
      | ⟨st1, .returned _⟩ => networkLoop caseTable c rest st1
      | ⟨st1, .panicked msg⟩ => ⟨st1, .panicked msg⟩

/-- The method `collectRemoteFXNetworkCount`; it returns `(*prometheus.Desc, error)`. -/
def collectRemoteFXNetworkCount (caseTable : Char → Char) (c : RemoteFxCollector)
    (ctx : ScrapeContext) (st : State) : Run (Option Desc × Option Error) :=
  let st0 : State := { st with decoded := st.decoded ++ ["RemoteFX Network"] }
  match unmarshalObject perflibRemoteFxNetwork.decode (ctx.perfObjects "RemoteFX Network") with
  | .error err => ⟨st0, .returned (none, some err)⟩
  | .ok dst =>
    match networkLoop caseTable c dst st0 with
    | ⟨st1, .returned _⟩ => ⟨st1, .returned (none, none)⟩
    | ⟨st1, .panicked msg⟩ => ⟨st1, .panicked msg⟩

/-- The loop `for _, d := range dst` of `collectRemoteFXGraphicsCounters`. -/
def graphicsLoop (caseTable : Char → Char) (c : RemoteFxCollector) :
    List perflibRemoteFxGraphics → State → Run Unit
  | [], st => ⟨st, .returned ()⟩
  | d :: rest, st =>
    -- only connect metrics for remote named sessions
    let n := ToLower caseTable d.Name
    if n = "" ∨ n = "services" ∨ n = "console" then
      graphicsLoop caseTable c rest st
    else
      match runSends (graphicsSends c d) st with
      | ⟨st1, .returned _⟩ => graphicsLoop caseTable c rest st1
      | ⟨st1, .panicked msg⟩ => ⟨st1, .panicked msg⟩

/-- The method `collectRemoteFXGraphicsCounters`; it returns `(*prometheus.Desc, error)`. -/
def collectRemoteFXGraphicsCounters (caseTable : Char → Char) (c : RemoteFxCollector)
    (ctx : ScrapeContext) (st : State) : Run (Option Desc × Option Error) :=
  let st0 : State := { st with decoded := st.decoded ++ ["RemoteFX Graphics"] }
  match unmarshalObject perflibRemoteFxGraphics.decode (ctx.perfObjects "RemoteFX Graphics") with
  | .error err => ⟨st0, .returned (none, some err)⟩
  | .ok dst =>
    match graphicsLoop caseTable c dst st0 with
    | ⟨st1, .returned _⟩ => ⟨st1, .returned (none, none)⟩
    | ⟨st1, .panicked msg⟩ => ⟨st1, .panicked msg⟩

/-- The method `Collect`: the network sub-collection, then the graphics
sub-collection; the first error is returned at once. The returned value is the
`error` (`none` for `nil`). The calls of `log.Error` write to the log only and are left out. -/
def Collect (caseTable : Char → Char) (c : RemoteFxCollector) (ctx : ScrapeContext)
    (st : State) : Run (Option Error) :=
  match collectRemoteFXNetworkCount caseTable c ctx st with
  | ⟨st1, .panicked msg⟩ => ⟨st1, .panicked msg⟩
  | ⟨st1, .returned (_, some err)⟩ => ⟨st1, .returned (some err)⟩
  | ⟨st1, .returned (_, none)⟩ =>
    match collectRemoteFXGraphicsCounters caseTable c ctx st1 with
    | ⟨st2, .panicked msg⟩ => ⟨st2, .panicked msg⟩
    | ⟨st2, .returned (_, some err)⟩ => ⟨st2, .returned (some err)⟩
    | ⟨st2, .returned (_, none)⟩ => ⟨st2, .returned none⟩

/-! ## Notions used to state the properties -/

/-- The descriptors of the network object type: the fields of the collector under `// net`. -/
def RemoteFxCollector.network (c : RemoteFxCollector) : List Desc :=
  [ c.BaseTCPRTT, c.BaseUDPRTT, c.CurrentTCPBandwidth, c.CurrentTCPRTT, c.CurrentUDPBandwidth,
    c.CurrentUDPRTT, c.FECRate, c.LossRate, c.RetransmissionRate, c.TCPReceivedRate,
    c.TCPSentRate, c.TotalReceivedRate, c.TotalSentRate, c.TotalReceivedBytes,
    c.TotalSentBytes, c.UDPPacketsReceivedPersec, c.UDPPacketsSentPersec, c.UDPReceivedRate,
    c.UDPSentRate ]

/-- The descriptors of the graphics object type: the fields of the collector under `//gfx`. -/
def RemoteFxCollector.graphics (c : RemoteFxCollector) : List Desc :=
  [ c.AverageEncodingTime, c.FrameQuality, c.FramesSkippedPerSecondInsufficientClientResources,
    c.FramesSkippedPerSecondInsufficientNetworkResources,
    c.FramesSkippedPerSecondInsufficientServerResources, c.GraphicsCompressionratio,
    c.InputFramesPerSecond, c.OutputFramesPerSecond, c.SourceFramesPerSecond ]

/-- The field mapper of the network object type: each descriptor sent by
`collectRemoteFXNetworkCount` with the `perflib` tag of the field of `perflibRemoteFxNetwork`
whose value it is sent with, in program order. -/
def networkFieldMap (c : RemoteFxCollector) : List (Desc × String) :=
  [ (c.BaseTCPRTT, "Base TCP RTT"),
    (c.BaseUDPRTT, "Base UDP RTT"),
    (c.CurrentTCPBandwidth, "Current TCP Bandwidth"),
    (c.CurrentTCPRTT, "Current TCP RTT"),
    (c.CurrentUDPBandwidth, "Current UDP Bandwidth"),
    (c.CurrentUDPRTT, "Current UDP RTT"),
    (c.FECRate, "FEC Rate"),
    (c.LossRate, "Loss Rate"),
    (c.RetransmissionRate, "Retransmission Rate"),
    (c.TCPReceivedRate, "TCP Received Rate"),
    (c.TCPSentRate, "TCP Sent Rate"),
    (c.TotalReceivedRate, "Total Received Rate"),
    (c.TotalSentRate, "Total Sent Rate"),
    (c.TotalReceivedBytes, "Total Received Bytes"),
    (c.TotalSentBytes, "Total Sent Bytes"),
    (c.UDPPacketsReceivedPersec, "UDP Packets Received/sec"),
    (c.UDPPacketsSentPersec, "UDP Packets Sent/sec"),
    (c.UDPReceivedRate, "UDP Received Rate"),
    (c.UDPSentRate, "UDP Sent Rate") ]

/-- The field mapper of the graphics object type: each descriptor sent by
`collectRemoteFXGraphicsCounters` with the `perflib` tag of the field of `perflibRemoteFxGraphics`
whose value it is sent with, in program order. -/
def graphicsFieldMap (c : RemoteFxCollector) : List (Desc × String) :=
  [ (c.AverageEncodingTime, "Average Encoding Time"),
    (c.FrameQuality, "Frame Quality"),
    (c.FramesSkippedPerSecondInsufficientClientResources, "Frames Skipped/Second - Insufficient Server Resources"),
    (c.FramesSkippedPerSecondInsufficientNetworkResources, "Frames Skipped/Second - Insufficient Network Resources"),
    (c.FramesSkippedPerSecondInsufficientServerResources, "Frames Skipped/Second - Insufficient Client Resources"),
    (c.GraphicsCompressionratio, "Graphics Compression ratio"),
    (c.InputFramesPerSecond, "Input Frames/Second"),
    (c.OutputFramesPerSecond, "Output Frames/Second"),
    (c.SourceFramesPerSecond, "Source Frames/Second") ]

/-- The metric a send statement puts on the channel when it does not panic. -/
def Send.metric (s : Send) : Metric :=
  { desc := s.desc, valType := s.valueType, val := s.value, labelValues := s.labelValues }

/-- The condition under which both loops skip an instance with the given name. -/
def isExcluded (caseTable : Char → Char) (name : String) : Prop :=
  ToLower caseTable name = "" ∨ ToLower caseTable name = "services" ∨
    ToLower caseTable name = "console"

instance (caseTable : Char → Char) (name : String) : Decidable (isExcluded caseTable name) := by
  unfold isExcluded; exact inferInstance

/-- Every descriptor of the collector declares exactly one variable label. -/
def RemoteFxCollector.oneLabel (c : RemoteFxCollector) : Prop :=
  ∀ d ∈ c.network ++ c.graphics, d.variableLabels.length = 1

/-- The case table that leaves every rune alone; used for concrete runs on ASCII names. -/
def noCaseTable : Char → Char := fun r => r

/-- The state before a collection pass: nothing sent, nothing decoded. -/
def State.initial : State := { sent := [], decoded := [] }

/-- The metrics the network loop sends for one decoded instance. -/
def networkBlock (caseTable : Char → Char) (c : RemoteFxCollector)
    (d : perflibRemoteFxNetwork) : List Metric :=
  (networkLoop caseTable c [d] State.initial).state.sent

/-- The metrics the graphics loop sends for one decoded instance. -/
def graphicsBlock (caseTable : Char → Char) (c : RemoteFxCollector)
    (d : perflibRemoteFxGraphics) : List Metric :=
  (graphicsLoop caseTable c [d] State.initial).state.sent

/-! ## Sample inputs -/

/-- Raw fields of a RemoteFX Network instance: `Base TCP RTT` is `12.5`, every other counter is `v`. -/
def sampleNetworkFields (v : Float64) : List (String × Float64) :=
  [ ("Base TCP RTT", Float64.twelveAndAHalf), ("Base UDP RTT", v),
    ("Current TCP Bandwidth", v), ("Current TCP RTT", v), ("Current UDP Bandwidth", v),
    ("Current UDP RTT", v), ("FEC Rate", v), ("Loss Rate", v), ("Retransmission Rate", v),
    ("TCP Received Rate", v), ("TCP Sent Rate", v), ("Total Received Rate", v),
    ("Total Sent Rate", v), ("Total Received Bytes", v), ("Total Sent Bytes", v),
    ("UDP Packets Received/sec", v), ("UDP Packets Sent/sec", v), ("UDP Received Rate", v),
    ("UDP Sent Rate", v) ]

/-- Raw fields of a RemoteFX Graphics instance; the two transposed counters get different values. -/
def sampleGraphicsFields (v : Float64) : List (String × Float64) :=
  [ ("Average Encoding Time", v), ("Frame Quality", v),
    ("Frames Skipped/Second - Insufficient Client Resources", ⟨1⟩),
    ("Frames Skipped/Second - Insufficient Network Resources", v),
    ("Frames Skipped/Second - Insufficient Server Resources", ⟨2⟩),
    ("Graphics Compression ratio", v), ("Input Frames/Second", v),
    ("Output Frames/Second", v), ("Source Frames/Second", v) ]

/-- A scrape context that knows the two RemoteFX objects and nothing else. -/
def sampleContext (network graphics : Except Error CounterSnapshot) : ScrapeContext :=
  { perfObjects := fun name =>
      if name = "RemoteFX Network" then network
      else if name = "RemoteFX Graphics" then graphics
      else .error (.SourceUnavailable "counter not found") }

/-- A RemoteFX Network instance with the sample fields. -/
def sampleNetwork (name : String) (v : Float64) : Instance :=
  { name := name, fields := sampleNetworkFields v }

/-- A RemoteFX Graphics instance with the sample fields. -/
def sampleGraphics (name : String) (v : Float64) : Instance :=
  { name := name, fields := sampleGraphicsFields v }

/-- What `sampleNetwork name v` decodes to. -/
def sampleNetworkDecoded (name : String) (v : Float64) : perflibRemoteFxNetwork :=
  { Name := name, BaseTCPRTT := Float64.twelveAndAHalf, BaseUDPRTT := v,
    CurrentTCPBandwidth := v, CurrentTCPRTT := v, CurrentUDPBandwidth := v, CurrentUDPRTT := v,
    FECRate := v, LossRate := v, RetransmissionRate := v, TCPReceivedRate := v,
    TCPSentRate := v, TotalReceivedRate := v, TotalSentRate := v, TotalReceivedBytes := v,
    TotalSentBytes := v, UDPPacketsReceivedPersec := v, UDPPacketsSentPersec := v,
    UDPReceivedRate := v, UDPSentRate := v }

/-- What `sampleGraphics name v` decodes to. -/
def sampleGraphicsDecoded (name : String) (v : Float64) : perflibRemoteFxGraphics :=
  { Name := name, AverageEncodingTime := v, FrameQuality := v,
    FramesSkippedPerSecondInsufficientClientResources := ⟨2⟩,
    FramesSkippedPerSecondInsufficientNetworkResources := v,
    FramesSkippedPerSecondInsufficientServerResources := ⟨1⟩,
    GraphicsCompressionratio := v, InputFramesPerSecond := v, OutputFramesPerSecond := v,
    SourceFramesPerSecond := v }

/-- A scrape context that answers every name other than `RemoteFX Network` with the graphics
snapshot; it differs from `sampleContext` on all other object names. -/
def sampleContextLoose (network graphics : Except Error CounterSnapshot) : ScrapeContext :=
  { perfObjects := fun name => if name = "RemoteFX Network" then network else graphics }

/-- A collector that `NewRemoteFx` does not build: its first descriptor declares no variable
label. It shows how a send statement panics. -/
def mislabelledCollector : RemoteFxCollector :=
  { (NewRemoteFx "wmi").1 with
    BaseTCPRTT := NewDesc (BuildFQName "wmi" "remote_fx" "net_base_tcp_rrt") "help" [] [] }

/-! ## How the loops run -/

theorem runSends_eq (sends : List Send) (st : State)
    (h : ∀ s ∈ sends, s.labelValues.length = s.desc.variableLabels.length) :
    runSends sends st =
      ⟨{ st with sent := st.sent ++ sends.map Send.metric }, .returned ()⟩ := by
  induction sends generalizing st with
  | nil => simp [runSends]
  | cons s rest ih =>
    have hs : s.labelValues.length = s.desc.variableLabels.length := h s (by simp)
    have hrest : ∀ t ∈ rest, t.labelValues.length = t.desc.variableLabels.length :=
      fun t ht => h t (by simp [ht])
    simp [runSends, Send.run, NewConstMetric, hs, ih _ hrest, Send.metric]

theorem networkSends_arity (c : RemoteFxCollector) (hc : c.oneLabel)
    (d : perflibRemoteFxNetwork) :
    ∀ s ∈ networkSends c d, s.labelValues.length = s.desc.variableLabels.length := by
  intro s hs
  have hdesc : s.desc ∈ c.network ++ c.graphics ∧ s.labelValues = [d.Name] := by
    simp only [networkSends, List.mem_cons, List.mem_singleton, List.not_mem_nil, or_false] at hs
    rcases hs with h | h | h | h | h | h | h | h | h | h | h | h | h | h | h | h | h | h | h <;>
      subst h <;> simp [RemoteFxCollector.network]
  rw [hc _ hdesc.1, hdesc.2]; rfl

theorem graphicsSends_arity (c : RemoteFxCollector) (hc : c.oneLabel)
    (d : perflibRemoteFxGraphics) :
    ∀ s ∈ graphicsSends c d, s.labelValues.length = s.desc.variableLabels.length := by
  intro s hs
  have hdesc : s.desc ∈ c.network ++ c.graphics ∧ s.labelValues = [d.Name] := by
    simp only [graphicsSends, List.mem_cons, List.mem_singleton, List.not_mem_nil, or_false] at hs
    rcases hs with h | h | h | h | h | h | h | h | h <;>
      subst h <;> simp [RemoteFxCollector.graphics]
  rw [hc _ hdesc.1, hdesc.2]; rfl

theorem networkBlock_eq (caseTable : Char → Char) (c : RemoteFxCollector) (hc : c.oneLabel)
    (d : perflibRemoteFxNetwork) :
    networkBlock caseTable c d =
      if isExcluded caseTable d.Name then [] else (networkSends c d).map Send.metric := by
  unfold networkBlock isExcluded
  by_cases hx : ToLower caseTable d.Name = "" ∨ ToLower caseTable d.Name = "services" ∨
      ToLower caseTable d.Name = "console"
  · simp [networkLoop, hx, State.initial]
  · simp only [networkLoop, hx, if_false, runSends_eq _ _ (networkSends_arity c hc d)]
    simp [State.initial]

theorem graphicsBlock_eq (caseTable : Char → Char) (c : RemoteFxCollector) (hc : c.oneLabel)
    (d : perflibRemoteFxGraphics) :
    graphicsBlock caseTable c d =
      if isExcluded caseTable d.Name then [] else (graphicsSends c d).map Send.metric := by
  unfold graphicsBlock isExcluded
  by_cases hx : ToLower caseTable d.Name = "" ∨ ToLower caseTable d.Name = "services" ∨
      ToLower caseTable d.Name = "console"
  · simp [graphicsLoop, hx, State.initial]
  · simp only [graphicsLoop, hx, if_false, runSends_eq _ _ (graphicsSends_arity c hc d)]
    simp [State.initial]

theorem networkLoop_eq (caseTable : Char → Char) (c : RemoteFxCollector) (hc : c.oneLabel)
    (dst : List perflibRemoteFxNetwork) (st : State) :
    networkLoop caseTable c dst st =
      ⟨{ st with sent := st.sent ++ dst.flatMap (networkBlock caseTable c) }, .returned ()⟩ := by
  induction dst generalizing st with
  | nil => simp [networkLoop]
  | cons d rest ih =>
    rw [List.flatMap_cons, networkBlock_eq caseTable c hc d]
    unfold isExcluded
    by_cases hx : ToLower caseTable d.Name = "" ∨ ToLower caseTable d.Name = "services" ∨
        ToLower caseTable d.Name = "console"
    · simp [networkLoop, hx, ih]
    · simp only [networkLoop, hx, if_false, runSends_eq _ _ (networkSends_arity c hc d), ih]
      simp

theorem graphicsLoop_eq (caseTable : Char → Char) (c : RemoteFxCollector) (hc : c.oneLabel)
    (dst : List perflibRemoteFxGraphics) (st : State) :
    graphicsLoop caseTable c dst st =
      ⟨{ st with sent := st.sent ++ dst.flatMap (graphicsBlock caseTable c) }, .returned ()⟩ := by
  induction dst generalizing st with
  | nil => simp [graphicsLoop]
  | cons d rest ih =>
    rw [List.flatMap_cons, graphicsBlock_eq caseTable c hc d]
    unfold isExcluded
    by_cases hx : ToLower caseTable d.Name = "" ∨ ToLower caseTable d.Name = "services" ∨
        ToLower caseTable d.Name = "console"
    · simp [graphicsLoop, hx, ih]
    · simp only [graphicsLoop, hx, if_false, runSends_eq _ _ (graphicsSends_arity c hc d), ih]
      simp

theorem NewRemoteFx_oneLabel (Namespace : String) : (NewRemoteFx Namespace).1.oneLabel := by
  intro d hd
  simp only [RemoteFxCollector.network, RemoteFxCollector.graphics, NewRemoteFx, NewDesc,
    List.cons_append, List.nil_append, List.mem_cons, List.mem_singleton, List.not_mem_nil,
    or_false] at hd
  rcases hd with h | h | h | h | h | h | h | h | h | h | h | h | h | h | h | h | h | h | h | h |
    h | h | h | h | h | h | h | h <;> subst h <;> rfl

/-! ## How the sub-collections and `Collect` run -/

theorem collectRemoteFXNetworkCount_error (caseTable : Char → Char) (c : RemoteFxCollector)
    (ctx : ScrapeContext) (st : State) (e : Error)
    (h : unmarshalObject perflibRemoteFxNetwork.decode (ctx.perfObjects "RemoteFX Network")
      = .error e) :
    collectRemoteFXNetworkCount caseTable c ctx st =
      ⟨{ st with decoded := st.decoded ++ ["RemoteFX Network"] }, .returned (none, some e)⟩ := by
  simp [collectRemoteFXNetworkCount, h]

theorem collectRemoteFXNetworkCount_ok (caseTable : Char → Char) (c : RemoteFxCollector)
    (hc : c.oneLabel) (ctx : ScrapeContext) (st : State) (dst : List perflibRemoteFxNetwork)
    (h : unmarshalObject perflibRemoteFxNetwork.decode (ctx.perfObjects "RemoteFX Network")
      = .ok dst) :
    collectRemoteFXNetworkCount caseTable c ctx st =
      ⟨{ sent := st.sent ++ dst.flatMap (networkBlock caseTable c),
         decoded := st.decoded ++ ["RemoteFX Network"] }, .returned (none, none)⟩ := by
  simp [collectRemoteFXNetworkCount, h, networkLoop_eq caseTable c hc]

theorem collectRemoteFXGraphicsCounters_error (caseTable : Char → Char) (c : RemoteFxCollector)
    (ctx : ScrapeContext) (st : State) (e : Error)
    (h : unmarshalObject perflibRemoteFxGraphics.decode (ctx.perfObjects "RemoteFX Graphics")
      = .error e) :
    collectRemoteFXGraphicsCounters caseTable c ctx st =
      ⟨{ st with decoded := st.decoded ++ ["RemoteFX Graphics"] }, .returned (none, some e)⟩ := by
  simp [collectRemoteFXGraphicsCounters, h]

theorem collectRemoteFXGraphicsCounters_ok (caseTable : Char → Char) (c : RemoteFxCollector)
    (hc : c.oneLabel) (ctx : ScrapeContext) (st : State) (dst : List perflibRemoteFxGraphics)
    (h : unmarshalObject perflibRemoteFxGraphics.decode (ctx.perfObjects "RemoteFX Graphics")
      = .ok dst) :
    collectRemoteFXGraphicsCounters caseTable c ctx st =
      ⟨{ sent := st.sent ++ dst.flatMap (graphicsBlock caseTable c),
         decoded := st.decoded ++ ["RemoteFX Graphics"] }, .returned (none, none)⟩ := by
  simp [collectRemoteFXGraphicsCounters, h, graphicsLoop_eq caseTable c hc]

theorem Collect_network_error (caseTable : Char → Char) (c : RemoteFxCollector)
    (ctx : ScrapeContext) (st : State) (e : Error)
    (h : unmarshalObject perflibRemoteFxNetwork.decode (ctx.perfObjects "RemoteFX Network")
      = .error e) :
    Collect caseTable c ctx st =
      ⟨{ st with decoded := st.decoded ++ ["RemoteFX Network"] }, .returned (some e)⟩ := by
  simp [Collect, collectRemoteFXNetworkCount_error caseTable c ctx st e h]

theorem Collect_graphics_error (caseTable : Char → Char) (c : RemoteFxCollector)
    (hc : c.oneLabel) (ctx : ScrapeContext) (st : State) (dst : List perflibRemoteFxNetwork)
    (e : Error)
    (hn : unmarshalObject perflibRemoteFxNetwork.decode (ctx.perfObjects "RemoteFX Network")
      = .ok dst)
    (hg : unmarshalObject perflibRemoteFxGraphics.decode (ctx.perfObjects "RemoteFX Graphics")
      = .error e) :
    Collect caseTable c ctx st =
      ⟨{ sent := st.sent ++ dst.flatMap (networkBlock caseTable c),
         decoded := st.decoded ++ ["RemoteFX Network", "RemoteFX Graphics"] },
       .returned (some e)⟩ := by
  simp [Collect, collectRemoteFXNetworkCount_ok caseTable c hc ctx st dst hn,
    collectRemoteFXGraphicsCounters_error caseTable c ctx _ e hg]

theorem Collect_ok (caseTable : Char → Char) (c : RemoteFxCollector)
    (hc : c.oneLabel) (ctx : ScrapeContext) (st : State) (dstN : List perflibRemoteFxNetwork)
    (dstG : List perflibRemoteFxGraphics)
    (hn : unmarshalObject perflibRemoteFxNetwork.decode (ctx.perfObjects "RemoteFX Network")
      = .ok dstN)
    (hg : unmarshalObject perflibRemoteFxGraphics.decode (ctx.perfObjects "RemoteFX Graphics")
      = .ok dstG) :
    Collect caseTable c ctx st =
      ⟨{ sent := st.sent ++ dstN.flatMap (networkBlock caseTable c)
           ++ dstG.flatMap (graphicsBlock caseTable c),
         decoded := st.decoded ++ ["RemoteFX Network", "RemoteFX Graphics"] },
       .returned none⟩ := by
  simp [Collect, collectRemoteFXNetworkCount_ok caseTable c hc ctx st dstN hn,
    collectRemoteFXGraphicsCounters_ok caseTable c hc ctx _ dstG hg]

/-! ## Instances the filter skips -/

theorem networkLoop_skip (caseTable : Char → Char) (c : RemoteFxCollector)
    (pre : List perflibRemoteFxNetwork) (d : perflibRemoteFxNetwork)
    (post : List perflibRemoteFxNetwork) (st : State) (h : isExcluded caseTable d.Name) :
    networkLoop caseTable c (pre ++ d :: post) st = networkLoop caseTable c (pre ++ post) st := by
  induction pre generalizing st with
  | nil =>
    have h' : ToLower caseTable d.Name = "" ∨ ToLower caseTable d.Name = "services" ∨
        ToLower caseTable d.Name = "console" := h
    simp [networkLoop, h']
  | cons p rest ih =>
    simp only [List.cons_append, networkLoop]
    split
    · exact ih st
    · cases hr : runSends (networkSends c p) st with
      | mk st1 out => cases out <;> simp [ih]

theorem graphicsLoop_skip (caseTable : Char → Char) (c : RemoteFxCollector)
    (pre : List perflibRemoteFxGraphics) (d : perflibRemoteFxGraphics)
    (post : List perflibRemoteFxGraphics) (st : State) (h : isExcluded caseTable d.Name) :
    graphicsLoop caseTable c (pre ++ d :: post) st = graphicsLoop caseTable c (pre ++ post) st := by
  induction pre generalizing st with
  | nil =>
    have h' : ToLower caseTable d.Name = "" ∨ ToLower caseTable d.Name = "services" ∨
        ToLower caseTable d.Name = "console" := h
    simp [graphicsLoop, h']
  | cons p rest ih =>
    simp only [List.cons_append, graphicsLoop]
    split
    · exact ih st
    · cases hr : runSends (graphicsSends c p) st with
      | mk st1 out => cases out <;> simp [ih]

/-- C1. An instance whose lower-cased name is `""`, `"services"` or `"console"` contributes
nothing to a collection pass, whatever its counters hold: when the decoded RemoteFX Network
snapshot (respectively the decoded RemoteFX Graphics snapshot) contains such an instance at any
position, `Collect` ends in the same state, with the same metrics on the channel and the same
outcome, as on a context whose snapshot lacks that one instance and is otherwise the same; and
the block of metrics that either loop sends for such an instance is empty. This holds for every
collector and every Unicode case table. -/
theorem excluded_instance_emits_nothing (caseTable : Char → Char) (c : RemoteFxCollector)
    (ctx ctx' : ScrapeContext) (st : State) :
    (∀ (pre : List perflibRemoteFxNetwork) (d : perflibRemoteFxNetwork)
        (post : List perflibRemoteFxNetwork),
      isExcluded caseTable d.Name →
      unmarshalObject perflibRemoteFxNetwork.decode (ctx.perfObjects "RemoteFX Network")
        = .ok (pre ++ d :: post) →
      unmarshalObject perflibRemoteFxNetwork.decode (ctx'.perfObjects "RemoteFX Network")
        = .ok (pre ++ post) →
      ctx'.perfObjects "RemoteFX Graphics" = ctx.perfObjects "RemoteFX Graphics" →
      Collect caseTable c ctx st = Collect caseTable c ctx' st) ∧
    (∀ (pre : List perflibRemoteFxGraphics) (d : perflibRemoteFxGraphics)
        (post : List perflibRemoteFxGraphics),
      isExcluded caseTable d.Name →
      unmarshalObject perflibRemoteFxGraphics.decode (ctx.perfObjects "RemoteFX Graphics")
        = .ok (pre ++ d :: post) →
      unmarshalObject perflibRemoteFxGraphics.decode (ctx'.perfObjects "RemoteFX Graphics")
        = .ok (pre ++ post) →
      ctx'.perfObjects "RemoteFX Network" = ctx.perfObjects "RemoteFX Network" →
      Collect caseTable c ctx st = Collect caseTable c ctx' st) ∧
    (∀ d : perflibRemoteFxNetwork,
      isExcluded caseTable d.Name → networkBlock caseTable c d = []) ∧
    (∀ d : perflibRemoteFxGraphics,
      isExcluded caseTable d.Name → graphicsBlock caseTable c d = []) := by
  refine ⟨?_, ?_, ?_, ?_⟩
  · intro pre d post hx h h' hg
    simp only [Collect, collectRemoteFXNetworkCount, collectRemoteFXGraphicsCounters, h, h', hg,
      networkLoop_skip caseTable c pre d post _ hx]
  · intro pre d post hx h h' hn
    simp only [Collect, collectRemoteFXNetworkCount, collectRemoteFXGraphicsCounters, h, h', hn,
      graphicsLoop_skip caseTable c pre d post _ hx]
  · intro d hx
    have h := networkLoop_skip caseTable c [] d [] State.initial hx
    simp only [List.nil_append] at h
    unfold networkBlock
    rw [h]
    rfl
  · intro d hx
    have h := graphicsLoop_skip caseTable c [] d [] State.initial hx
    simp only [List.nil_append] at h
    unfold graphicsBlock
    rw [h]
    rfl

theorem excluded_instance_emits_nothing_witness :
    Collect noCaseTable (NewRemoteFx "wmi").1
        (sampleContext (.ok [sampleNetwork "RDP-Tcp#0" ⟨7⟩, sampleNetwork "Console" ⟨9⟩])
          (.ok [sampleGraphics "SERVICES" ⟨5⟩, sampleGraphics "RDP-Tcp#0" ⟨3⟩])) State.initial
      = Collect noCaseTable (NewRemoteFx "wmi").1
        (sampleContext (.ok [sampleNetwork "RDP-Tcp#0" ⟨7⟩])
          (.ok [sampleGraphics "SERVICES" ⟨5⟩, sampleGraphics "RDP-Tcp#0" ⟨3⟩])) State.initial ∧
    Collect noCaseTable (NewRemoteFx "wmi").1
        (sampleContext (.ok [sampleNetwork "RDP-Tcp#0" ⟨7⟩, sampleNetwork "Console" ⟨9⟩])
          (.ok [sampleGraphics "SERVICES" ⟨5⟩, sampleGraphics "RDP-Tcp#0" ⟨3⟩])) State.initial
      = Collect noCaseTable (NewRemoteFx "wmi").1
        (sampleContext (.ok [sampleNetwork "RDP-Tcp#0" ⟨7⟩, sampleNetwork "Console" ⟨9⟩])
          (.ok [sampleGraphics "RDP-Tcp#0" ⟨3⟩])) State.initial ∧
    networkBlock noCaseTable (NewRemoteFx "wmi").1 (sampleNetworkDecoded "Console" ⟨9⟩) = [] ∧
    graphicsBlock noCaseTable (NewRemoteFx "wmi").1 (sampleGraphicsDecoded "" ⟨5⟩) = [] :=
  ⟨(excluded_instance_emits_nothing noCaseTable (NewRemoteFx "wmi").1 _ _ State.initial).1
      [sampleNetworkDecoded "RDP-Tcp#0" ⟨7⟩] (sampleNetworkDecoded "Console" ⟨9⟩) []
      (by decide) rfl rfl rfl,
   (excluded_instance_emits_nothing noCaseTable (NewRemoteFx "wmi").1 _ _ State.initial).2.1
      [] (sampleGraphicsDecoded "SERVICES" ⟨5⟩) [sampleGraphicsDecoded "RDP-Tcp#0" ⟨3⟩]
      (by decide) rfl rfl rfl,
   (excluded_instance_emits_nothing noCaseTable (NewRemoteFx "wmi").1
      (sampleContext (.ok []) (.ok [])) (sampleContext (.ok []) (.ok [])) State.initial).2.2.1
      (sampleNetworkDecoded "Console" ⟨9⟩) (by decide),
   (excluded_instance_emits_nothing noCaseTable (NewRemoteFx "wmi").1
      (sampleContext (.ok []) (.ok [])) (sampleContext (.ok []) (.ok [])) State.initial).2.2.2
      (sampleGraphicsDecoded "" ⟨5⟩) (by decide)⟩

/-! ## Descriptor names -/

theorem BuildFQName_injective (ns a b : String) (ha : a ≠ "") (hb : b ≠ "")
    (h : BuildFQName ns "remote_fx" a = BuildFQName ns "remote_fx" b) : a = b := by
  have key : ∀ p : String, p ++ a = p ++ b → a = b := by
    intro p hp
    have hd := congrArg String.data hp
    simp only [String.data_append] at hd
    exact String.ext (List.append_cancel_left hd)
  unfold BuildFQName at h
  have hsub : ("remote_fx" : String) ≠ "" := by decide
  simp only [if_neg ha, if_neg hb, hsub, ne_eq, not_false_eq_true, and_true] at h
  by_cases hns : ns = ""
  · simp only [hns, not_true_eq_false, if_false, if_true] at h
    exact key _ h
  · simp only [hns, not_false_eq_true, if_true] at h
    exact key _ h

/-- The metric name suffixes in the order of the fields of `RemoteFxCollector`. -/
theorem NewRemoteFx_names (Namespace : String) :
    ((NewRemoteFx Namespace).1.network ++ (NewRemoteFx Namespace).1.graphics).map Desc.fqName =
      [ "net_base_tcp_rrt", "net_base_udp_rrt", "net_current_tcp_bandwidth",
        "net_current_tcp_rtt", "net_current_udp_bandwidth", "net_current_udp_rtt",
        "net_fec_rate", "net_loss_rate", "net_retransmission_rate", "net_tcp_received_rate",
        "net_tcp_sent_rate", "net_total_received_rate", "net_total_sent_rate",
        "net_total_received_bytes", "net_total_sent_bytes", "net_udp_packets_received_persec",
        "net_udp_packets_sent_persec", "net_udp_received_rate", "net_udp_sent_rate",
        "gfx_average_encoding_time", "gfx_frame_quality",
        "gfx_frames_skipped_persec_insufficient_clt_res",
        "gfx_frames_skipped_persec_insufficient_net_res",
        "gfx_frames_skipped_persec_insufficient_srv_res", "gfx_graphics_compression_ratio",
        "gfx_input_frames_persec", "gfx_output_frames_persec",
        "gfx_source_frames_persec" ].map (BuildFQName Namespace "remote_fx") := rfl

theorem NewRemoteFx_names_nodup (Namespace : String) :
    (((NewRemoteFx Namespace).1.network ++ (NewRemoteFx Namespace).1.graphics).map
      Desc.fqName).Nodup := by
  rw [NewRemoteFx_names]
  refine List.Nodup.map_on ?_ (by decide)
  intro a ha b hb hab
  refine BuildFQName_injective Namespace a b ?_ ?_ hab
  · rintro rfl; revert ha; decide
  · rintro rfl; revert hb; decide

theorem NewRemoteFx_descs_nodup (Namespace : String) :
    ((NewRemoteFx Namespace).1.network ++ (NewRemoteFx Namespace).1.graphics).Nodup :=
  List.Nodup.of_map _ (NewRemoteFx_names_nodup Namespace)

/-! ## Instances the filter lets through -/

theorem networkBlock_included (caseTable : Char → Char) (c : RemoteFxCollector)
    (hc : c.oneLabel) (d : perflibRemoteFxNetwork) (h : ¬ isExcluded caseTable d.Name) :
    networkBlock caseTable c d = (networkSends c d).map Send.metric := by
  rw [networkBlock_eq caseTable c hc d, if_neg h]

theorem graphicsBlock_included (caseTable : Char → Char) (c : RemoteFxCollector)
    (hc : c.oneLabel) (d : perflibRemoteFxGraphics) (h : ¬ isExcluded caseTable d.Name) :
    graphicsBlock caseTable c d = (graphicsSends c d).map Send.metric := by
  rw [graphicsBlock_eq caseTable c hc d, if_neg h]

/-- C2. For the collector built by `NewRemoteFx` and an instance whose lower-cased name is none
of `""`, `"services"`, `"console"`, standing at any position of the decoded snapshot of its
object type: the sub-collection sends, between what it sends for the instances before it and
what it sends for the instances after it, one block of metrics for that instance; the
descriptors of the block are exactly the descriptors of the object type, each once (19 for
RemoteFX Network, 9 for RemoteFX Graphics, and the descriptor lists have no repetition); and
every metric of the block has the label values `[d.Name]`, the name as decoded. -/
theorem included_instance_emits_one_sample_per_descriptor (caseTable : Char → Char)
    (Namespace : String) (ctx : ScrapeContext) (st : State) :
    (∀ (pre : List perflibRemoteFxNetwork) (d : perflibRemoteFxNetwork)
        (post : List perflibRemoteFxNetwork),
      ¬ isExcluded caseTable d.Name →
      unmarshalObject perflibRemoteFxNetwork.decode (ctx.perfObjects "RemoteFX Network")
        = .ok (pre ++ d :: post) →
      (collectRemoteFXNetworkCount caseTable (NewRemoteFx Namespace).1 ctx st).state.sent =
          st.sent ++ pre.flatMap (networkBlock caseTable (NewRemoteFx Namespace).1)
            ++ networkBlock caseTable (NewRemoteFx Namespace).1 d
            ++ post.flatMap (networkBlock caseTable (NewRemoteFx Namespace).1) ∧
        (networkBlock caseTable (NewRemoteFx Namespace).1 d).map Metric.desc
          = (NewRemoteFx Namespace).1.network ∧
        (networkBlock caseTable (NewRemoteFx Namespace).1 d).length = 19 ∧
        ∀ m ∈ networkBlock caseTable (NewRemoteFx Namespace).1 d, m.labelValues = [d.Name]) ∧
    (NewRemoteFx Namespace).1.network.Nodup ∧
    (∀ (pre : List perflibRemoteFxGraphics) (d : perflibRemoteFxGraphics)
        (post : List perflibRemoteFxGraphics),
      ¬ isExcluded caseTable d.Name →
      unmarshalObject perflibRemoteFxGraphics.decode (ctx.perfObjects "RemoteFX Graphics")
        = .ok (pre ++ d :: post) →
      (collectRemoteFXGraphicsCounters caseTable (NewRemoteFx Namespace).1 ctx st).state.sent =
          st.sent ++ pre.flatMap (graphicsBlock caseTable (NewRemoteFx Namespace).1)
            ++ graphicsBlock caseTable (NewRemoteFx Namespace).1 d
            ++ post.flatMap (graphicsBlock caseTable (NewRemoteFx Namespace).1) ∧
        (graphicsBlock caseTable (NewRemoteFx Namespace).1 d).map Metric.desc
          = (NewRemoteFx Namespace).1.graphics ∧
        (graphicsBlock caseTable (NewRemoteFx Namespace).1 d).length = 9 ∧
        ∀ m ∈ graphicsBlock caseTable (NewRemoteFx Namespace).1 d, m.labelValues = [d.Name]) ∧
    (NewRemoteFx Namespace).1.graphics.Nodup := by
  have hc := NewRemoteFx_oneLabel Namespace
  have hnd := NewRemoteFx_descs_nodup Namespace
  refine ⟨?_, (List.nodup_append.mp hnd).1, ?_, (List.nodup_append.mp hnd).2.1⟩
  · intro pre d post hx h
    rw [collectRemoteFXNetworkCount_ok caseTable _ hc ctx st _ h]
    refine ⟨by simp [List.flatMap_append, List.flatMap_cons, List.append_assoc], ?_, ?_, ?_⟩
    · rw [networkBlock_included caseTable _ hc d hx]; rfl
    · rw [networkBlock_included caseTable _ hc d hx]; rfl
    · rw [networkBlock_included caseTable _ hc d hx]
      intro m hm
      simp only [networkSends, Send.metric, List.map_cons, List.map_nil, List.mem_cons,
        List.mem_singleton, List.not_mem_nil, or_false] at hm
      rcases hm with h | h | h | h | h | h | h | h | h | h | h | h | h | h | h | h | h | h | h <;>
        rw [h]
  · intro pre d post hx h
    rw [collectRemoteFXGraphicsCounters_ok caseTable _ hc ctx st _ h]
    refine ⟨by simp [List.flatMap_append, List.flatMap_cons, List.append_assoc], ?_, ?_, ?_⟩
    · rw [graphicsBlock_included caseTable _ hc d hx]; rfl
    · rw [graphicsBlock_included caseTable _ hc d hx]; rfl
    · rw [graphicsBlock_included caseTable _ hc d hx]
      intro m hm
      simp only [graphicsSends, Send.metric, List.map_cons, List.map_nil, List.mem_cons,
        List.mem_singleton, List.not_mem_nil, or_false] at hm
      rcases hm with h | h | h | h | h | h | h | h | h <;> rw [h]

theorem included_instance_emits_one_sample_per_descriptor_witness :
    ((collectRemoteFXNetworkCount noCaseTable (NewRemoteFx "wmi").1
        (sampleContext
          (.ok [sampleNetwork "Console" ⟨9⟩, sampleNetwork "RDP-Tcp#0" ⟨7⟩,
            sampleNetwork "RDP-Tcp#0" ⟨8⟩])
          (.ok [sampleGraphics "RDP-Tcp#0" ⟨3⟩])) State.initial).state.sent =
          State.initial.sent
            ++ [sampleNetworkDecoded "Console" ⟨9⟩].flatMap
                (networkBlock noCaseTable (NewRemoteFx "wmi").1)
            ++ networkBlock noCaseTable (NewRemoteFx "wmi").1 (sampleNetworkDecoded "RDP-Tcp#0" ⟨7⟩)
            ++ [sampleNetworkDecoded "RDP-Tcp#0" ⟨8⟩].flatMap
                (networkBlock noCaseTable (NewRemoteFx "wmi").1) ∧
        (networkBlock noCaseTable (NewRemoteFx "wmi").1
            (sampleNetworkDecoded "RDP-Tcp#0" ⟨7⟩)).map Metric.desc
          = (NewRemoteFx "wmi").1.network ∧
        (networkBlock noCaseTable (NewRemoteFx "wmi").1
            (sampleNetworkDecoded "RDP-Tcp#0" ⟨7⟩)).length = 19 ∧
        ∀ m ∈ networkBlock noCaseTable (NewRemoteFx "wmi").1
            (sampleNetworkDecoded "RDP-Tcp#0" ⟨7⟩),
          m.labelValues = [(sampleNetworkDecoded "RDP-Tcp#0" ⟨7⟩).Name]) ∧
    ((collectRemoteFXGraphicsCounters noCaseTable (NewRemoteFx "wmi").1
        (sampleContext
          (.ok [sampleNetwork "Console" ⟨9⟩, sampleNetwork "RDP-Tcp#0" ⟨7⟩,
            sampleNetwork "RDP-Tcp#0" ⟨8⟩])
          (.ok [sampleGraphics "RDP-Tcp#0" ⟨3⟩])) State.initial).state.sent =
          State.initial.sent
            ++ ([] : List perflibRemoteFxGraphics).flatMap
                (graphicsBlock noCaseTable (NewRemoteFx "wmi").1)
            ++ graphicsBlock noCaseTable (NewRemoteFx "wmi").1
                (sampleGraphicsDecoded "RDP-Tcp#0" ⟨3⟩)
            ++ ([] : List perflibRemoteFxGraphics).flatMap
                (graphicsBlock noCaseTable (NewRemoteFx "wmi").1) ∧
        (graphicsBlock noCaseTable (NewRemoteFx "wmi").1
            (sampleGraphicsDecoded "RDP-Tcp#0" ⟨3⟩)).map Metric.desc
          = (NewRemoteFx "wmi").1.graphics ∧
        (graphicsBlock noCaseTable (NewRemoteFx "wmi").1
            (sampleGraphicsDecoded "RDP-Tcp#0" ⟨3⟩)).length = 9 ∧
        ∀ m ∈ graphicsBlock noCaseTable (NewRemoteFx "wmi").1
            (sampleGraphicsDecoded "RDP-Tcp#0" ⟨3⟩),
          m.labelValues = [(sampleGraphicsDecoded "RDP-Tcp#0" ⟨3⟩).Name]) :=
  ⟨(included_instance_emits_one_sample_per_descriptor noCaseTable "wmi" _ State.initial).1
      [sampleNetworkDecoded "Console" ⟨9⟩] (sampleNetworkDecoded "RDP-Tcp#0" ⟨7⟩)
      [sampleNetworkDecoded "RDP-Tcp#0" ⟨8⟩] (by decide) rfl,
   (included_instance_emits_one_sample_per_descriptor noCaseTable "wmi" _ State.initial).2.2.1
      [] (sampleGraphicsDecoded "RDP-Tcp#0" ⟨3⟩) [] (by decide) rfl⟩

/-! ## Decoding and the field mapper -/

theorem Instance.field_bind_ok {α : Type} (i : Instance) (tag : String)
    (f : Float64 → Except Error α) (a : α) (h : (i.field tag).bind f = .ok a) :
    ∃ v, i.fields.lookup tag = some v ∧ f v = .ok a := by
  unfold Instance.field at h
  cases hl : i.fields.lookup tag with
  | none => rw [hl] at h; cases h
  | some v => rw [hl] at h; exact ⟨v, rfl, h⟩

theorem networkDecode_ok (i : Instance) (d : perflibRemoteFxNetwork)
    (h : perflibRemoteFxNetwork.decode i = .ok d) :
    d.Name = i.name ∧
    i.fields.lookup "Base TCP RTT" = some d.BaseTCPRTT ∧
    i.fields.lookup "Base UDP RTT" = some d.BaseUDPRTT ∧
    i.fields.lookup "Current TCP Bandwidth" = some d.CurrentTCPBandwidth ∧
    i.fields.lookup "Current TCP RTT" = some d.CurrentTCPRTT ∧
    i.fields.lookup "Current UDP Bandwidth" = some d.CurrentUDPBandwidth ∧
    i.fields.lookup "Current UDP RTT" = some d.CurrentUDPRTT ∧
    i.fields.lookup "FEC Rate" = some d.FECRate ∧
    i.fields.lookup "Loss Rate" = some d.LossRate ∧
    i.fields.lookup "Retransmission Rate" = some d.RetransmissionRate ∧
    i.fields.lookup "TCP Received Rate" = some d.TCPReceivedRate ∧
    i.fields.lookup "TCP Sent Rate" = some d.TCPSentRate ∧
    i.fields.lookup "Total Received Rate" = some d.TotalReceivedRate ∧
    i.fields.lookup "Total Sent Rate" = some d.TotalSentRate ∧
    i.fields.lookup "Total Received Bytes" = some d.TotalReceivedBytes ∧
    i.fields.lookup "Total Sent Bytes" = some d.TotalSentBytes ∧
    i.fields.lookup "UDP Packets Received/sec" = some d.UDPPacketsReceivedPersec ∧
    i.fields.lookup "UDP Packets Sent/sec" = some d.UDPPacketsSentPersec ∧
    i.fields.lookup "UDP Received Rate" = some d.UDPReceivedRate ∧
    i.fields.lookup "UDP Sent Rate" = some d.UDPSentRate := by
  unfold perflibRemoteFxNetwork.decode at h
  obtain ⟨v0, h0, h⟩ := Instance.field_bind_ok _ _ _ _ h
  obtain ⟨v1, h1, h⟩ := Instance.field_bind_ok _ _ _ _ h
  obtain ⟨v2, h2, h⟩ := Instance.field_bind_ok _ _ _ _ h
  obtain ⟨v3, h3, h⟩ := Instance.field_bind_ok _ _ _ _ h
  obtain ⟨v4, h4, h⟩ := Instance.field_bind_ok _ _ _ _ h
  obtain ⟨v5, h5, h⟩ := Instance.field_bind_ok _ _ _ _ h
  obtain ⟨v6, h6, h⟩ := Instance.field_bind_ok _ _ _ _ h
  obtain ⟨v7, h7, h⟩ := Instance.field_bind_ok _ _ _ _ h
  obtain ⟨v8, h8, h⟩ := Instance.field_bind_ok _ _ _ _ h
  obtain ⟨v9, h9, h⟩ := Instance.field_bind_ok _ _ _ _ h
  obtain ⟨v10, h10, h⟩ := Instance.field_bind_ok _ _ _ _ h
  obtain ⟨v11, h11, h⟩ := Instance.field_bind_ok _ _ _ _ h
  obtain ⟨v12, h12, h⟩ := Instance.field_bind_ok _ _ _ _ h
  obtain ⟨v13, h13, h⟩ := Instance.field_bind_ok _ _ _ _ h
  obtain ⟨v14, h14, h⟩ := Instance.field_bind_ok _ _ _ _ h
  obtain ⟨v15, h15, h⟩ := Instance.field_bind_ok _ _ _ _ h
  obtain ⟨v16, h16, h⟩ := Instance.field_bind_ok _ _ _ _ h
  obtain ⟨v17, h17, h⟩ := Instance.field_bind_ok _ _ _ _ h
  obtain ⟨v18, h18, h⟩ := Instance.field_bind_ok _ _ _ _ h
  cases h
  exact ⟨rfl, h0, h1, h2, h3, h4, h5, h6, h7, h8, h9, h10, h11, h12, h13, h14, h15, h16, h17, h18⟩

theorem graphicsDecode_ok (i : Instance) (d : perflibRemoteFxGraphics)
    (h : perflibRemoteFxGraphics.decode i = .ok d) :
    d.Name = i.name ∧
    i.fields.lookup "Average Encoding Time" = some d.AverageEncodingTime ∧
    i.fields.lookup "Frame Quality" = some d.FrameQuality ∧
    i.fields.lookup "Frames Skipped/Second - Insufficient Server Resources" = some d.FramesSkippedPerSecondInsufficientClientResources ∧
    i.fields.lookup "Frames Skipped/Second - Insufficient Network Resources" = some d.FramesSkippedPerSecondInsufficientNetworkResources ∧
    i.fields.lookup "Frames Skipped/Second - Insufficient Client Resources" = some d.FramesSkippedPerSecondInsufficientServerResources ∧
    i.fields.lookup "Graphics Compression ratio" = some d.GraphicsCompressionratio ∧
    i.fields.lookup "Input Frames/Second" = some d.InputFramesPerSecond ∧
    i.fields.lookup "Output Frames/Second" = some d.OutputFramesPerSecond ∧
    i.fields.lookup "Source Frames/Second" = some d.SourceFramesPerSecond := by
  unfold perflibRemoteFxGraphics.decode at h
  obtain ⟨v0, h0, h⟩ := Instance.field_bind_ok _ _ _ _ h
  obtain ⟨v1, h1, h⟩ := Instance.field_bind_ok _ _ _ _ h
  obtain ⟨v2, h2, h⟩ := Instance.field_bind_ok _ _ _ _ h
  obtain ⟨v3, h3, h⟩ := Instance.field_bind_ok _ _ _ _ h
  obtain ⟨v4, h4, h⟩ := Instance.field_bind_ok _ _ _ _ h
  obtain ⟨v5, h5, h⟩ := Instance.field_bind_ok _ _ _ _ h
  obtain ⟨v6, h6, h⟩ := Instance.field_bind_ok _ _ _ _ h
  obtain ⟨v7, h7, h⟩ := Instance.field_bind_ok _ _ _ _ h
  obtain ⟨v8, h8, h⟩ := Instance.field_bind_ok _ _ _ _ h
  cases h
  exact ⟨rfl, h0, h1, h2, h3, h4, h5, h6, h7, h8⟩

/-- C3. Value identity, for the collector built by `NewRemoteFx`. When an instance `i` with a
name the filter lets through decodes to `d`, the block of metrics sent for it carries, for each
descriptor in turn, the value the instance holds in the raw field that the field mapper pairs
with that descriptor, unchanged. In particular the block contains the metric with descriptor
`BaseTCPRTT` (named `net_base_tcp_rrt`), type Gauge, label values `[i.name]` and the value of
the raw field `Base TCP RTT`. -/
theorem sample_value_is_raw_field (caseTable : Char → Char) (Namespace : String) (i : Instance) :
    (∀ d : perflibRemoteFxNetwork,
      perflibRemoteFxNetwork.decode i = .ok d → ¬ isExcluded caseTable i.name →
      (networkBlock caseTable (NewRemoteFx Namespace).1 d).map (fun m => (m.desc, some m.val))
          = (networkFieldMap (NewRemoteFx Namespace).1).map
              (fun p => (p.1, i.fields.lookup p.2)) ∧
        (∀ v, i.fields.lookup "Base TCP RTT" = some v →
          { desc := (NewRemoteFx Namespace).1.BaseTCPRTT, valType := .GaugeValue, val := v,
            labelValues := [i.name] } ∈ networkBlock caseTable (NewRemoteFx Namespace).1 d) ∧
        (NewRemoteFx Namespace).1.BaseTCPRTT.fqName
          = BuildFQName Namespace "remote_fx" "net_base_tcp_rrt") ∧
    (∀ d : perflibRemoteFxGraphics,
      perflibRemoteFxGraphics.decode i = .ok d → ¬ isExcluded caseTable i.name →
      (graphicsBlock caseTable (NewRemoteFx Namespace).1 d).map (fun m => (m.desc, some m.val))
          = (graphicsFieldMap (NewRemoteFx Namespace).1).map
              (fun p => (p.1, i.fields.lookup p.2))) := by
  have hc := NewRemoteFx_oneLabel Namespace
  constructor
  · intro d hd hx
    have hok := networkDecode_ok i d hd
    obtain ⟨hname, h0, h1, h2, h3, h4, h5, h6, h7, h8, h9, h10, h11, h12, h13, h14, h15, h16,
      h17, h18⟩ := hok
    rw [← hname] at hx
    rw [networkBlock_included caseTable _ hc d hx]
    refine ⟨?_, ?_, rfl⟩
    · simp only [networkFieldMap, List.map_cons, List.map_nil, h0, h1, h2, h3, h4, h5, h6, h7,
        h8, h9, h10, h11, h12, h13, h14, h15, h16, h17, h18]
      rfl
    · intro v hv
      rw [h0] at hv
      cases hv
      rw [← hname]
      simp [networkSends, Send.metric]
  · intro d hd hx
    have hok := graphicsDecode_ok i d hd
    obtain ⟨hname, h0, h1, h2, h3, h4, h5, h6, h7, h8⟩ := hok
    rw [← hname] at hx
    rw [graphicsBlock_included caseTable _ hc d hx]
    simp only [graphicsFieldMap, List.map_cons, List.map_nil, h0, h1, h2, h3, h4, h5, h6, h7, h8]
    rfl

theorem sample_value_is_raw_field_witness :
    ((networkBlock noCaseTable (NewRemoteFx "wmi").1
          (sampleNetworkDecoded "RDP-Tcp#0" ⟨7⟩)).map (fun m => (m.desc, some m.val))
        = (networkFieldMap (NewRemoteFx "wmi").1).map
            (fun p => (p.1, (sampleNetwork "RDP-Tcp#0" ⟨7⟩).fields.lookup p.2))) ∧
    ({ desc := (NewRemoteFx "wmi").1.BaseTCPRTT, valType := .GaugeValue,
       val := Float64.twelveAndAHalf, labelValues := ["RDP-Tcp#0"] } ∈
      networkBlock noCaseTable (NewRemoteFx "wmi").1 (sampleNetworkDecoded "RDP-Tcp#0" ⟨7⟩)) ∧
    (NewRemoteFx "wmi").1.BaseTCPRTT.fqName = "wmi_remote_fx_net_base_tcp_rrt" ∧
    ((graphicsBlock noCaseTable (NewRemoteFx "wmi").1
          (sampleGraphicsDecoded "RDP-Tcp#0" ⟨3⟩)).map (fun m => (m.desc, some m.val))
        = (graphicsFieldMap (NewRemoteFx "wmi").1).map
            (fun p => (p.1, (sampleGraphics "RDP-Tcp#0" ⟨3⟩).fields.lookup p.2))) :=
  ⟨((sample_value_is_raw_field noCaseTable "wmi" (sampleNetwork "RDP-Tcp#0" ⟨7⟩)).1
      (sampleNetworkDecoded "RDP-Tcp#0" ⟨7⟩) rfl (by decide)).1,
   ((sample_value_is_raw_field noCaseTable "wmi" (sampleNetwork "RDP-Tcp#0" ⟨7⟩)).1
      (sampleNetworkDecoded "RDP-Tcp#0" ⟨7⟩) rfl (by decide)).2.1 Float64.twelveAndAHalf rfl,
   ((sample_value_is_raw_field noCaseTable "wmi" (sampleNetwork "RDP-Tcp#0" ⟨7⟩)).1
      (sampleNetworkDecoded "RDP-Tcp#0" ⟨7⟩) rfl (by decide)).2.2,
   (sample_value_is_raw_field noCaseTable "wmi" (sampleGraphics "RDP-Tcp#0" ⟨3⟩)).2
      (sampleGraphicsDecoded "RDP-Tcp#0" ⟨3⟩) rfl (by decide)⟩

/-! ## Error propagation -/

/-- C4. Fail-fast. When decoding the RemoteFX Network object fails with error `e`, `Collect`
returns exactly `e`; the channel holds what it held before the call, so no network and no
graphics metric is sent; and the only object handed to `unmarshalObject` during the call is
`"RemoteFX Network"`, so the RemoteFX Graphics object is never decoded. Nothing is assumed
about the graphics snapshot or about the collector. -/
theorem network_failure_aborts_pass (caseTable : Char → Char) (c : RemoteFxCollector)
    (ctx : ScrapeContext) (st : State) (e : Error)
    (h : unmarshalObject perflibRemoteFxNetwork.decode (ctx.perfObjects "RemoteFX Network")
      = .error e) :
    (Collect caseTable c ctx st).outcome = .returned (some e) ∧
    (Collect caseTable c ctx st).state.sent = st.sent ∧
    (Collect caseTable c ctx st).state.decoded = st.decoded ++ ["RemoteFX Network"] := by
  rw [Collect_network_error caseTable c ctx st e h]
  exact ⟨rfl, rfl, rfl⟩

theorem network_failure_aborts_pass_witness :
    (Collect noCaseTable (NewRemoteFx "wmi").1
        (sampleContext (.error (.SourceUnavailable "query failed"))
          (.ok [sampleGraphics "RDP-Tcp#0" ⟨3⟩])) State.initial).outcome
      = .returned (some (.SourceUnavailable "query failed")) ∧
    (Collect noCaseTable (NewRemoteFx "wmi").1
        (sampleContext (.error (.SourceUnavailable "query failed"))
          (.ok [sampleGraphics "RDP-Tcp#0" ⟨3⟩])) State.initial).state.sent
      = State.initial.sent ∧
    (Collect noCaseTable (NewRemoteFx "wmi").1
        (sampleContext (.error (.SourceUnavailable "query failed"))
          (.ok [sampleGraphics "RDP-Tcp#0" ⟨3⟩])) State.initial).state.decoded
      = State.initial.decoded ++ ["RemoteFX Network"] :=
  network_failure_aborts_pass noCaseTable (NewRemoteFx "wmi").1
    (sampleContext (.error (.SourceUnavailable "query failed"))
      (.ok [sampleGraphics "RDP-Tcp#0" ⟨3⟩])) State.initial
    (.SourceUnavailable "query failed") rfl

/-- C5. Partial success, for the collector built by `NewRemoteFx`. When the RemoteFX Network
object decodes to `dst` and decoding the RemoteFX Graphics object fails with error `e`,
`Collect` returns `e`, and the channel holds exactly what the network sub-collection alone
leaves on it: the earlier contents followed by the blocks of the instances of `dst` in order.
Nothing is taken back and no graphics metric is added. -/
theorem graphics_failure_keeps_network_samples (caseTable : Char → Char) (Namespace : String)
    (ctx : ScrapeContext) (st : State) (dst : List perflibRemoteFxNetwork) (e : Error)
    (hn : unmarshalObject perflibRemoteFxNetwork.decode (ctx.perfObjects "RemoteFX Network")
      = .ok dst)
    (hg : unmarshalObject perflibRemoteFxGraphics.decode (ctx.perfObjects "RemoteFX Graphics")
      = .error e) :
    (Collect caseTable (NewRemoteFx Namespace).1 ctx st).outcome = .returned (some e) ∧
    (Collect caseTable (NewRemoteFx Namespace).1 ctx st).state.sent
      = (collectRemoteFXNetworkCount caseTable (NewRemoteFx Namespace).1 ctx st).state.sent ∧
    (Collect caseTable (NewRemoteFx Namespace).1 ctx st).state.sent
      = st.sent ++ dst.flatMap (networkBlock caseTable (NewRemoteFx Namespace).1) := by
  have hc := NewRemoteFx_oneLabel Namespace
  rw [Collect_graphics_error caseTable _ hc ctx st dst e hn hg,
    collectRemoteFXNetworkCount_ok caseTable _ hc ctx st dst hn]
  exact ⟨rfl, rfl, rfl⟩

theorem graphics_failure_keeps_network_samples_witness :
    (Collect noCaseTable (NewRemoteFx "wmi").1
        (sampleContext (.ok [sampleNetwork "RDP-Tcp#0" ⟨7⟩, sampleNetwork "console" ⟨9⟩])
          (.error (.SourceUnavailable "query failed"))) State.initial).outcome
      = .returned (some (.SourceUnavailable "query failed")) ∧
    (Collect noCaseTable (NewRemoteFx "wmi").1
        (sampleContext (.ok [sampleNetwork "RDP-Tcp#0" ⟨7⟩, sampleNetwork "console" ⟨9⟩])
          (.error (.SourceUnavailable "query failed"))) State.initial).state.sent
      = (collectRemoteFXNetworkCount noCaseTable (NewRemoteFx "wmi").1
        (sampleContext (.ok [sampleNetwork "RDP-Tcp#0" ⟨7⟩, sampleNetwork "console" ⟨9⟩])
          (.error (.SourceUnavailable "query failed"))) State.initial).state.sent ∧
    (Collect noCaseTable (NewRemoteFx "wmi").1
        (sampleContext (.ok [sampleNetwork "RDP-Tcp#0" ⟨7⟩, sampleNetwork "console" ⟨9⟩])
          (.error (.SourceUnavailable "query failed"))) State.initial).state.sent
      = State.initial.sent ++
        [sampleNetworkDecoded "RDP-Tcp#0" ⟨7⟩, sampleNetworkDecoded "console" ⟨9⟩].flatMap
          (networkBlock noCaseTable (NewRemoteFx "wmi").1) :=
  graphics_failure_keeps_network_samples noCaseTable "wmi"
    (sampleContext (.ok [sampleNetwork "RDP-Tcp#0" ⟨7⟩, sampleNetwork "console" ⟨9⟩])
      (.error (.SourceUnavailable "query failed"))) State.initial
    [sampleNetworkDecoded "RDP-Tcp#0" ⟨7⟩, sampleNetworkDecoded "console" ⟨9⟩]
    (.SourceUnavailable "query failed") rfl rfl

theorem networkBlocks_explicit (caseTable : Char → Char) (c : RemoteFxCollector)
    (hc : c.oneLabel) (dst : List perflibRemoteFxNetwork) :
    dst.flatMap (networkBlock caseTable c) =
      (dst.filter (fun d => decide (¬ isExcluded caseTable d.Name))).flatMap
        (fun d => (networkSends c d).map Send.metric) := by
  induction dst with
  | nil => rfl
  | cons d rest ih =>
    rw [List.flatMap_cons, ih, networkBlock_eq caseTable c hc d]
    by_cases hx : isExcluded caseTable d.Name
    · simp [hx]
    · simp [hx, List.flatMap_cons]

theorem graphicsBlocks_explicit (caseTable : Char → Char) (c : RemoteFxCollector)
    (hc : c.oneLabel) (dst : List perflibRemoteFxGraphics) :
    dst.flatMap (graphicsBlock caseTable c) =
      (dst.filter (fun d => decide (¬ isExcluded caseTable d.Name))).flatMap
        (fun d => (graphicsSends c d).map Send.metric) := by
  induction dst with
  | nil => rfl
  | cons d rest ih =>
    rw [List.flatMap_cons, ih, graphicsBlock_eq caseTable c hc d]
    by_cases hx : isExcluded caseTable d.Name
    · simp [hx]
    · simp [hx, List.flatMap_cons]

/-- C6. For the collector built by `NewRemoteFx`, `Collect` returns no error exactly when both
the RemoteFX Network object and the RemoteFX Graphics object decode. In that case, when it
returns, the channel holds the earlier contents followed by, for every network instance the
filter lets through, in snapshot order, the metric of each of the 19 send statements of the
network loop (its descriptor, value type, value and the label values `[d.Name]`), followed by
the same for every graphics instance the filter lets through and the 9 send statements of the
graphics loop. So for every included instance and every send statement of its loop, the metric
of that statement is on the channel, and the number of metrics added is 19 per included network
instance plus 9 per included graphics instance. -/
theorem no_error_iff_both_decode (caseTable : Char → Char) (Namespace : String)
    (ctx : ScrapeContext) (st : State) :
    ((Collect caseTable (NewRemoteFx Namespace).1 ctx st).outcome = .returned none ↔
      (∃ dstN, unmarshalObject perflibRemoteFxNetwork.decode
          (ctx.perfObjects "RemoteFX Network") = .ok dstN) ∧
      (∃ dstG, unmarshalObject perflibRemoteFxGraphics.decode
          (ctx.perfObjects "RemoteFX Graphics") = .ok dstG)) ∧
    (∀ dstN dstG,
      unmarshalObject perflibRemoteFxNetwork.decode (ctx.perfObjects "RemoteFX Network")
        = .ok dstN →
      unmarshalObject perflibRemoteFxGraphics.decode (ctx.perfObjects "RemoteFX Graphics")
        = .ok dstG →
      (Collect caseTable (NewRemoteFx Namespace).1 ctx st).outcome = .returned none ∧
      (Collect caseTable (NewRemoteFx Namespace).1 ctx st).state.sent
        = st.sent ++
          (dstN.filter (fun d => decide (¬ isExcluded caseTable d.Name))).flatMap
            (fun d => (networkSends (NewRemoteFx Namespace).1 d).map
              (fun s => { desc := s.desc, valType := s.valueType, val := s.value,
                          labelValues := [d.Name] })) ++
          (dstG.filter (fun d => decide (¬ isExcluded caseTable d.Name))).flatMap
            (fun d => (graphicsSends (NewRemoteFx Namespace).1 d).map
              (fun s => { desc := s.desc, valType := s.valueType, val := s.value,
                          labelValues := [d.Name] })) ∧
      (∀ d ∈ dstN, ¬ isExcluded caseTable d.Name →
        ∀ s ∈ networkSends (NewRemoteFx Namespace).1 d,
          { desc := s.desc, valType := s.valueType, val := s.value, labelValues := [d.Name] }
            ∈ (Collect caseTable (NewRemoteFx Namespace).1 ctx st).state.sent) ∧
      (∀ d ∈ dstG, ¬ isExcluded caseTable d.Name →
        ∀ s ∈ graphicsSends (NewRemoteFx Namespace).1 d,
          { desc := s.desc, valType := s.valueType, val := s.value, labelValues := [d.Name] }
            ∈ (Collect caseTable (NewRemoteFx Namespace).1 ctx st).state.sent) ∧
      (Collect caseTable (NewRemoteFx Namespace).1 ctx st).state.sent.length
        = st.sent.length +
          19 * (dstN.filter (fun d => decide (¬ isExcluded caseTable d.Name))).length +
          9 * (dstG.filter (fun d => decide (¬ isExcluded caseTable d.Name))).length) := by
  have hc := NewRemoteFx_oneLabel Namespace
  constructor
  · cases hn : unmarshalObject perflibRemoteFxNetwork.decode
        (ctx.perfObjects "RemoteFX Network") with
    | error e =>
      rw [Collect_network_error caseTable _ ctx st e hn]
      simp
    | ok dstN =>
      cases hg : unmarshalObject perflibRemoteFxGraphics.decode
          (ctx.perfObjects "RemoteFX Graphics") with
      | error e =>
        rw [Collect_graphics_error caseTable _ hc ctx st dstN e hn hg]
        simp
      | ok dstG =>
        rw [Collect_ok caseTable _ hc ctx st dstN dstG hn hg]
        simp
  · intro dstN dstG hn hg
    have hlabN : ∀ d : perflibRemoteFxNetwork,
        (networkSends (NewRemoteFx Namespace).1 d).map
            (fun s => ({ desc := s.desc, valType := s.valueType, val := s.value,
                         labelValues := [d.Name] } : Metric))
          = (networkSends (NewRemoteFx Namespace).1 d).map Send.metric := fun d => rfl
    have hlabG : ∀ d : perflibRemoteFxGraphics,
        (graphicsSends (NewRemoteFx Namespace).1 d).map
            (fun s => ({ desc := s.desc, valType := s.valueType, val := s.value,
                         labelValues := [d.Name] } : Metric))
          = (graphicsSends (NewRemoteFx Namespace).1 d).map Send.metric := fun d => rfl
    have hsent : (Collect caseTable (NewRemoteFx Namespace).1 ctx st).state.sent
        = st.sent ++
          (dstN.filter (fun d => decide (¬ isExcluded caseTable d.Name))).flatMap
            (fun d => (networkSends (NewRemoteFx Namespace).1 d).map
              (fun s => { desc := s.desc, valType := s.valueType, val := s.value,
                          labelValues := [d.Name] })) ++
          (dstG.filter (fun d => decide (¬ isExcluded caseTable d.Name))).flatMap
            (fun d => (graphicsSends (NewRemoteFx Namespace).1 d).map
              (fun s => { desc := s.desc, valType := s.valueType, val := s.value,
                          labelValues := [d.Name] })) := by
      rw [Collect_ok caseTable _ hc ctx st dstN dstG hn hg]
      simp only [hlabN, hlabG, networkBlocks_explicit caseTable _ hc dstN,
        graphicsBlocks_explicit caseTable _ hc dstG]
    refine ⟨?_, hsent, ?_, ?_, ?_⟩
    · rw [Collect_ok caseTable _ hc ctx st dstN dstG hn hg]
    · intro d hd hx s hs
      rw [hsent]
      refine List.mem_append.mpr (Or.inl (List.mem_append.mpr (Or.inr ?_)))
      refine List.mem_flatMap.mpr ⟨d, ?_, List.mem_map.mpr ⟨s, hs, rfl⟩⟩
      exact List.mem_filter.mpr ⟨hd, by simpa using hx⟩
    · intro d hd hx s hs
      rw [hsent]
      refine List.mem_append.mpr (Or.inr ?_)
      refine List.mem_flatMap.mpr ⟨d, ?_, List.mem_map.mpr ⟨s, hs, rfl⟩⟩
      exact List.mem_filter.mpr ⟨hd, by simpa using hx⟩
    · rw [Collect_ok caseTable _ hc ctx st dstN dstG hn hg]
      simp only [List.length_append]
      have h1 : ∀ l : List perflibRemoteFxNetwork,
          (l.flatMap (networkBlock caseTable (NewRemoteFx Namespace).1)).length
            = 19 * (l.filter (fun d => decide (¬ isExcluded caseTable d.Name))).length := by
        intro l
        induction l with
        | nil => rfl
        | cons d rest ih =>
          rw [List.flatMap_cons, List.length_append, ih, networkBlock_eq caseTable _ hc d]
          by_cases hx : isExcluded caseTable d.Name
          · simp [hx]
          · simp [hx, networkSends, Nat.mul_add]
            omega
      have h2 : ∀ l : List perflibRemoteFxGraphics,
          (l.flatMap (graphicsBlock caseTable (NewRemoteFx Namespace).1)).length
            = 9 * (l.filter (fun d => decide (¬ isExcluded caseTable d.Name))).length := by
        intro l
        induction l with
        | nil => rfl
        | cons d rest ih =>
          rw [List.flatMap_cons, List.length_append, ih, graphicsBlock_eq caseTable _ hc d]
          by_cases hx : isExcluded caseTable d.Name
          · simp [hx]
          · simp [hx, graphicsSends, Nat.mul_add]
            omega
      rw [h1 dstN, h2 dstG]

theorem no_error_iff_both_decode_witness :
    (Collect noCaseTable (NewRemoteFx "wmi").1
        (sampleContext (.ok [sampleNetwork "Console" ⟨9⟩, sampleNetwork "RDP-Tcp#0" ⟨7⟩])
          (.ok [sampleGraphics "RDP-Tcp#0" ⟨3⟩])) State.initial).outcome = .returned none ∧
    ({ desc := (NewRemoteFx "wmi").1.BaseTCPRTT, valType := .GaugeValue,
       val := Float64.twelveAndAHalf, labelValues := ["RDP-Tcp#0"] } ∈
      (Collect noCaseTable (NewRemoteFx "wmi").1
        (sampleContext (.ok [sampleNetwork "Console" ⟨9⟩, sampleNetwork "RDP-Tcp#0" ⟨7⟩])
          (.ok [sampleGraphics "RDP-Tcp#0" ⟨3⟩])) State.initial).state.sent) ∧
    ({ desc := (NewRemoteFx "wmi").1.SourceFramesPerSecond, valType := .CounterValue,
       val := ⟨3⟩, labelValues := ["RDP-Tcp#0"] } ∈
      (Collect noCaseTable (NewRemoteFx "wmi").1
        (sampleContext (.ok [sampleNetwork "Console" ⟨9⟩, sampleNetwork "RDP-Tcp#0" ⟨7⟩])
          (.ok [sampleGraphics "RDP-Tcp#0" ⟨3⟩])) State.initial).state.sent) ∧
    (Collect noCaseTable (NewRemoteFx "wmi").1
        (sampleContext (.ok [sampleNetwork "Console" ⟨9⟩, sampleNetwork "RDP-Tcp#0" ⟨7⟩])
          (.ok [sampleGraphics "RDP-Tcp#0" ⟨3⟩])) State.initial).state.sent.length
      = State.initial.sent.length +
        19 * ([sampleNetworkDecoded "Console" ⟨9⟩, sampleNetworkDecoded "RDP-Tcp#0" ⟨7⟩].filter
          (fun d => decide (¬ isExcluded noCaseTable d.Name))).length +
        9 * ([sampleGraphicsDecoded "RDP-Tcp#0" ⟨3⟩].filter
          (fun d => decide (¬ isExcluded noCaseTable d.Name))).length :=
  ⟨((no_error_iff_both_decode noCaseTable "wmi"
      (sampleContext (.ok [sampleNetwork "Console" ⟨9⟩, sampleNetwork "RDP-Tcp#0" ⟨7⟩])
        (.ok [sampleGraphics "RDP-Tcp#0" ⟨3⟩])) State.initial).2
      [sampleNetworkDecoded "Console" ⟨9⟩, sampleNetworkDecoded "RDP-Tcp#0" ⟨7⟩]
      [sampleGraphicsDecoded "RDP-Tcp#0" ⟨3⟩] rfl rfl).1,
   ((no_error_iff_both_decode noCaseTable "wmi"
      (sampleContext (.ok [sampleNetwork "Console" ⟨9⟩, sampleNetwork "RDP-Tcp#0" ⟨7⟩])
        (.ok [sampleGraphics "RDP-Tcp#0" ⟨3⟩])) State.initial).2
      [sampleNetworkDecoded "Console" ⟨9⟩, sampleNetworkDecoded "RDP-Tcp#0" ⟨7⟩]
      [sampleGraphicsDecoded "RDP-Tcp#0" ⟨3⟩] rfl rfl).2.2.1
      (sampleNetworkDecoded "RDP-Tcp#0" ⟨7⟩) (by decide) (by decide)
      ⟨(NewRemoteFx "wmi").1.BaseTCPRTT, .GaugeValue, Float64.twelveAndAHalf, ["RDP-Tcp#0"]⟩
      (by decide),
   ((no_error_iff_both_decode noCaseTable "wmi"
      (sampleContext (.ok [sampleNetwork "Console" ⟨9⟩, sampleNetwork "RDP-Tcp#0" ⟨7⟩])
        (.ok [sampleGraphics "RDP-Tcp#0" ⟨3⟩])) State.initial).2
      [sampleNetworkDecoded "Console" ⟨9⟩, sampleNetworkDecoded "RDP-Tcp#0" ⟨7⟩]
      [sampleGraphicsDecoded "RDP-Tcp#0" ⟨3⟩] rfl rfl).2.2.2.1
      (sampleGraphicsDecoded "RDP-Tcp#0" ⟨3⟩) (by decide) (by decide)
      ⟨(NewRemoteFx "wmi").1.SourceFramesPerSecond, .CounterValue, ⟨3⟩, ["RDP-Tcp#0"]⟩
      (by decide),
   ((no_error_iff_both_decode noCaseTable "wmi"
      (sampleContext (.ok [sampleNetwork "Console" ⟨9⟩, sampleNetwork "RDP-Tcp#0" ⟨7⟩])
        (.ok [sampleGraphics "RDP-Tcp#0" ⟨3⟩])) State.initial).2
      [sampleNetworkDecoded "Console" ⟨9⟩, sampleNetworkDecoded "RDP-Tcp#0" ⟨7⟩]
      [sampleGraphicsDecoded "RDP-Tcp#0" ⟨3⟩] rfl rfl).2.2.2.2⟩

/-! ## Counting the metrics of a pass -/

theorem networkBlocks_length (caseTable : Char → Char) (c : RemoteFxCollector) (hc : c.oneLabel)
    (dst : List perflibRemoteFxNetwork) :
    (dst.flatMap (networkBlock caseTable c)).length =
      19 * (dst.filter (fun d => decide (¬ isExcluded caseTable d.Name))).length := by
  induction dst with
  | nil => rfl
  | cons d rest ih =>
    rw [List.flatMap_cons, List.length_append, ih, networkBlock_eq caseTable c hc d]
    by_cases hx : isExcluded caseTable d.Name
    · simp [hx]
    · simp [hx, networkSends, Nat.mul_add]
      omega

theorem graphicsBlocks_length (caseTable : Char → Char) (c : RemoteFxCollector)
    (hc : c.oneLabel) (dst : List perflibRemoteFxGraphics) :
    (dst.flatMap (graphicsBlock caseTable c)).length =
      9 * (dst.filter (fun d => decide (¬ isExcluded caseTable d.Name))).length := by
  induction dst with
  | nil => rfl
  | cons d rest ih =>
    rw [List.flatMap_cons, List.length_append, ih, graphicsBlock_eq caseTable c hc d]
    by_cases hx : isExcluded caseTable d.Name
    · simp [hx]
    · simp [hx, graphicsSends, Nat.mul_add]
      omega

/-- C7, as stated, fails: with the one included network instance `RDP-Tcp#0`, a network object
that decodes and a graphics object whose fetch fails, `Collect` returns the error and the
channel holds 19 metrics, not 18. -/
theorem eighteen_samples_counterexample :
    unmarshalObject perflibRemoteFxNetwork.decode
        ((sampleContext (.ok [sampleNetwork "RDP-Tcp#0" ⟨7⟩])
          (.error (.SourceUnavailable "query failed"))).perfObjects "RemoteFX Network")
      = .ok [sampleNetworkDecoded "RDP-Tcp#0" ⟨7⟩] ∧
    ¬ isExcluded noCaseTable "RDP-Tcp#0" ∧
    (Collect noCaseTable (NewRemoteFx "wmi").1
        (sampleContext (.ok [sampleNetwork "RDP-Tcp#0" ⟨7⟩])
          (.error (.SourceUnavailable "query failed"))) State.initial).outcome
      = .returned (some (.SourceUnavailable "query failed")) ∧
    (Collect noCaseTable (NewRemoteFx "wmi").1
        (sampleContext (.ok [sampleNetwork "RDP-Tcp#0" ⟨7⟩])
          (.error (.SourceUnavailable "query failed"))) State.initial).state.sent.length = 19 ∧
    ¬ (Collect noCaseTable (NewRemoteFx "wmi").1
        (sampleContext (.ok [sampleNetwork "RDP-Tcp#0" ⟨7⟩])
          (.error (.SourceUnavailable "query failed"))) State.initial).state.sent.length = 18 :=
  ⟨rfl, by decide, rfl, by decide, by decide⟩

/-- C7, amended. For the collector built by `NewRemoteFx`: when the RemoteFX Network object
decodes to a snapshot with exactly one instance that the filter lets through and decoding the
RemoteFX Graphics object fails with error `e`, `Collect` returns `e` and adds exactly 19
metrics to the channel, one per network descriptor. -/
theorem one_included_instance_gives_nineteen_samples (caseTable : Char → Char)
    (Namespace : String) (ctx : ScrapeContext) (st : State)
    (dst : List perflibRemoteFxNetwork) (e : Error)
    (hn : unmarshalObject perflibRemoteFxNetwork.decode (ctx.perfObjects "RemoteFX Network")
      = .ok dst)
    (hone : (dst.filter (fun d => decide (¬ isExcluded caseTable d.Name))).length = 1)
    (hg : unmarshalObject perflibRemoteFxGraphics.decode (ctx.perfObjects "RemoteFX Graphics")
      = .error e) :
    (Collect caseTable (NewRemoteFx Namespace).1 ctx st).outcome = .returned (some e) ∧
    (Collect caseTable (NewRemoteFx Namespace).1 ctx st).state.sent.length
      = st.sent.length + 19 ∧
    (NewRemoteFx Namespace).1.network.length = 19 := by
  have hc := NewRemoteFx_oneLabel Namespace
  rw [Collect_graphics_error caseTable _ hc ctx st dst e hn hg]
  refine ⟨rfl, ?_, rfl⟩
  simp only [List.length_append, networkBlocks_length caseTable _ hc dst, hone]

theorem one_included_instance_gives_nineteen_samples_witness :
    (Collect noCaseTable (NewRemoteFx "wmi").1
        (sampleContext (.ok [sampleNetwork "Services" ⟨9⟩, sampleNetwork "RDP-Tcp#0" ⟨7⟩])
          (.error (.SourceUnavailable "query failed"))) State.initial).outcome
      = .returned (some (.SourceUnavailable "query failed")) ∧
    (Collect noCaseTable (NewRemoteFx "wmi").1
        (sampleContext (.ok [sampleNetwork "Services" ⟨9⟩, sampleNetwork "RDP-Tcp#0" ⟨7⟩])
          (.error (.SourceUnavailable "query failed"))) State.initial).state.sent.length
      = State.initial.sent.length + 19 ∧
    (NewRemoteFx "wmi").1.network.length = 19 :=
  one_included_instance_gives_nineteen_samples noCaseTable "wmi"
    (sampleContext (.ok [sampleNetwork "Services" ⟨9⟩, sampleNetwork "RDP-Tcp#0" ⟨7⟩])
      (.error (.SourceUnavailable "query failed"))) State.initial
    [sampleNetworkDecoded "Services" ⟨9⟩, sampleNetworkDecoded "RDP-Tcp#0" ⟨7⟩]
    (.SourceUnavailable "query failed") rfl (by decide) rfl

/-! ## Value types, order and the descriptor table -/

theorem networkBlock_types (caseTable : Char → Char) (Namespace : String)
    (d : perflibRemoteFxNetwork) :
    ∀ m ∈ networkBlock caseTable (NewRemoteFx Namespace).1 d,
      (m.desc.fqName, m.valType) ∈
        [ "net_base_tcp_rrt", "net_base_udp_rrt", "net_current_tcp_bandwidth",
          "net_current_tcp_rtt", "net_current_udp_bandwidth", "net_current_udp_rtt" ].map
          (fun s => (BuildFQName Namespace "remote_fx" s, ValueType.GaugeValue)) ++
        [ "net_fec_rate", "net_loss_rate", "net_retransmission_rate", "net_tcp_received_rate",
          "net_tcp_sent_rate", "net_total_received_rate", "net_total_sent_rate",
          "net_total_received_bytes", "net_total_sent_bytes",
          "net_udp_packets_received_persec", "net_udp_packets_sent_persec",
          "net_udp_received_rate", "net_udp_sent_rate" ].map
          (fun s => (BuildFQName Namespace "remote_fx" s, ValueType.CounterValue)) := by
  intro m hm
  rw [networkBlock_eq caseTable _ (NewRemoteFx_oneLabel Namespace) d] at hm
  split at hm
  · cases hm
  · simp only [networkSends, Send.metric, List.map_cons, List.map_nil, List.mem_cons,
      List.mem_singleton, List.not_mem_nil, or_false] at hm
    rcases hm with h | h | h | h | h | h | h | h | h | h | h | h | h | h | h | h | h | h | h <;>
      subst h <;> simp [NewRemoteFx, NewDesc]

theorem graphicsBlock_types (caseTable : Char → Char) (Namespace : String)
    (d : perflibRemoteFxGraphics) :
    ∀ m ∈ graphicsBlock caseTable (NewRemoteFx Namespace).1 d,
      (m.desc.fqName, m.valType) ∈
        [ "gfx_average_encoding_time", "gfx_frame_quality",
          "gfx_graphics_compression_ratio" ].map
          (fun s => (BuildFQName Namespace "remote_fx" s, ValueType.GaugeValue)) ++
        [ "gfx_frames_skipped_persec_insufficient_clt_res",
          "gfx_frames_skipped_persec_insufficient_net_res",
          "gfx_frames_skipped_persec_insufficient_srv_res", "gfx_input_frames_persec",
          "gfx_output_frames_persec", "gfx_source_frames_persec" ].map
          (fun s => (BuildFQName Namespace "remote_fx" s, ValueType.CounterValue)) := by
  intro m hm
  rw [graphicsBlock_eq caseTable _ (NewRemoteFx_oneLabel Namespace) d] at hm
  split at hm
  · cases hm
  · simp only [graphicsSends, Send.metric, List.map_cons, List.map_nil, List.mem_cons,
      List.mem_singleton, List.not_mem_nil, or_false] at hm
    rcases hm with h | h | h | h | h | h | h | h | h <;>
      subst h <;> simp [NewRemoteFx, NewDesc]

theorem Collect_sent (caseTable : Char → Char) (Namespace : String) (ctx : ScrapeContext)
    (st : State) :
    (Collect caseTable (NewRemoteFx Namespace).1 ctx st).state.sent =
      st.sent ++
        (match unmarshalObject perflibRemoteFxNetwork.decode
            (ctx.perfObjects "RemoteFX Network") with
          | .error _ => []
          | .ok dstN =>
            dstN.flatMap (networkBlock caseTable (NewRemoteFx Namespace).1) ++
              (match unmarshalObject perflibRemoteFxGraphics.decode
                  (ctx.perfObjects "RemoteFX Graphics") with
                | .error _ => []
                | .ok dstG =>
                  dstG.flatMap (graphicsBlock caseTable (NewRemoteFx Namespace).1))) := by
  have hc := NewRemoteFx_oneLabel Namespace
  cases hn : unmarshalObject perflibRemoteFxNetwork.decode
      (ctx.perfObjects "RemoteFX Network") with
  | error e => simp [Collect_network_error caseTable _ ctx st e hn]
  | ok dstN =>
    cases hg : unmarshalObject perflibRemoteFxGraphics.decode
        (ctx.perfObjects "RemoteFX Graphics") with
    | error e => simp [Collect_graphics_error caseTable _ hc ctx st dstN e hn hg]
    | ok dstG => simp [Collect_ok caseTable _ hc ctx st dstN dstG hn hg]

/-- C8. For the collector built by `NewRemoteFx`, every metric a collection pass adds to the
channel has the value type listed for its name: Gauge for `net_base_tcp_rrt`,
`net_base_udp_rrt`, `net_current_tcp_bandwidth`, `net_current_tcp_rtt`,
`net_current_udp_bandwidth`, `net_current_udp_rtt`, `gfx_average_encoding_time`,
`gfx_frame_quality` and `gfx_graphics_compression_ratio`, and Counter for the other thirteen
network and six graphics names. The 28 names are pairwise distinct, so the name alone fixes the
type, whatever the instance and its values. -/
theorem sample_types_by_name (caseTable : Char → Char) (Namespace : String)
    (ctx : ScrapeContext) (st : State) :
    (∃ emitted, (Collect caseTable (NewRemoteFx Namespace).1 ctx st).state.sent
        = st.sent ++ emitted ∧
      ∀ m ∈ emitted, (m.desc.fqName, m.valType) ∈
        [ "net_base_tcp_rrt", "net_base_udp_rrt", "net_current_tcp_bandwidth",
          "net_current_tcp_rtt", "net_current_udp_bandwidth", "net_current_udp_rtt",
          "gfx_average_encoding_time", "gfx_frame_quality",
          "gfx_graphics_compression_ratio" ].map
          (fun s => (BuildFQName Namespace "remote_fx" s, ValueType.GaugeValue)) ++
        [ "net_fec_rate", "net_loss_rate", "net_retransmission_rate", "net_tcp_received_rate",
          "net_tcp_sent_rate", "net_total_received_rate", "net_total_sent_rate",
          "net_total_received_bytes", "net_total_sent_bytes",
          "net_udp_packets_received_persec", "net_udp_packets_sent_persec",
          "net_udp_received_rate", "net_udp_sent_rate",
          "gfx_frames_skipped_persec_insufficient_clt_res",
          "gfx_frames_skipped_persec_insufficient_net_res",
          "gfx_frames_skipped_persec_insufficient_srv_res", "gfx_input_frames_persec",
          "gfx_output_frames_persec", "gfx_source_frames_persec" ].map
          (fun s => (BuildFQName Namespace "remote_fx" s, ValueType.CounterValue))) ∧
    (([ "net_base_tcp_rrt", "net_base_udp_rrt", "net_current_tcp_bandwidth",
        "net_current_tcp_rtt", "net_current_udp_bandwidth", "net_current_udp_rtt",
        "gfx_average_encoding_time", "gfx_frame_quality", "gfx_graphics_compression_ratio",
        "net_fec_rate", "net_loss_rate", "net_retransmission_rate", "net_tcp_received_rate",
        "net_tcp_sent_rate", "net_total_received_rate", "net_total_sent_rate",
        "net_total_received_bytes", "net_total_sent_bytes",
        "net_udp_packets_received_persec", "net_udp_packets_sent_persec",
        "net_udp_received_rate", "net_udp_sent_rate",
        "gfx_frames_skipped_persec_insufficient_clt_res",
        "gfx_frames_skipped_persec_insufficient_net_res",
        "gfx_frames_skipped_persec_insufficient_srv_res", "gfx_input_frames_persec",
        "gfx_output_frames_persec", "gfx_source_frames_persec" ].map
        (BuildFQName Namespace "remote_fx")).Nodup) := by
  constructor
  · refine ⟨_, Collect_sent caseTable Namespace ctx st, ?_⟩
    intro m hm
    have hnet : ∀ d, m ∈ networkBlock caseTable (NewRemoteFx Namespace).1 d → _ :=
      fun d h => networkBlock_types caseTable Namespace d m h
    have hgfx : ∀ d, m ∈ graphicsBlock caseTable (NewRemoteFx Namespace).1 d → _ :=
      fun d h => graphicsBlock_types caseTable Namespace d m h
    have hsub : (∃ d, m ∈ networkBlock caseTable (NewRemoteFx Namespace).1 d) ∨
        (∃ d, m ∈ graphicsBlock caseTable (NewRemoteFx Namespace).1 d) := by
      split at hm
      · cases hm
      · rcases List.mem_append.mp hm with h | h
        · obtain ⟨d, _, hd⟩ := List.mem_flatMap.mp h
          exact Or.inl ⟨d, hd⟩
        · split at h
          · cases h
          · obtain ⟨d, _, hd⟩ := List.mem_flatMap.mp h
            exact Or.inr ⟨d, hd⟩
    rcases hsub with ⟨d, hd⟩ | ⟨d, hd⟩
    · rcases List.mem_append.mp (hnet d hd) with h | h
      · obtain ⟨s, hs, hsm⟩ := List.mem_map.mp h
        refine List.mem_append.mpr (Or.inl (List.mem_map.mpr ⟨s, ?_, hsm⟩))
        clear hsm; revert s; decide
      · obtain ⟨s, hs, hsm⟩ := List.mem_map.mp h
        refine List.mem_append.mpr (Or.inr (List.mem_map.mpr ⟨s, ?_, hsm⟩))
        clear hsm; revert s; decide
    · rcases List.mem_append.mp (hgfx d hd) with h | h
      · obtain ⟨s, hs, hsm⟩ := List.mem_map.mp h
        refine List.mem_append.mpr (Or.inl (List.mem_map.mpr ⟨s, ?_, hsm⟩))
        clear hsm; revert s; decide
      · obtain ⟨s, hs, hsm⟩ := List.mem_map.mp h
        refine List.mem_append.mpr (Or.inr (List.mem_map.mpr ⟨s, ?_, hsm⟩))
        clear hsm; revert s; decide
  · refine List.Nodup.map_on ?_ (by decide)
    intro a ha b hb hab
    refine BuildFQName_injective Namespace a b ?_ ?_ hab
    · rintro rfl; revert ha; decide
    · rintro rfl; revert hb; decide

theorem networkBlocks_filter (caseTable : Char → Char) (c : RemoteFxCollector)
    (dst : List perflibRemoteFxNetwork) :
    dst.flatMap (networkBlock caseTable c) =
      (dst.filter (fun d => decide (¬ isExcluded caseTable d.Name))).flatMap
        (networkBlock caseTable c) := by
  induction dst with
  | nil => rfl
  | cons d rest ih =>
    by_cases hx : isExcluded caseTable d.Name
    · have hnil : networkBlock caseTable c d = [] := by
        have h' : ToLower caseTable d.Name = "" ∨ ToLower caseTable d.Name = "services" ∨
            ToLower caseTable d.Name = "console" := hx
        simp [networkBlock, networkLoop, h', State.initial]
      simp [List.flatMap_cons, hx, hnil, ih]
    · simp [List.flatMap_cons, hx, ih]

theorem graphicsBlocks_filter (caseTable : Char → Char) (c : RemoteFxCollector)
    (dst : List perflibRemoteFxGraphics) :
    dst.flatMap (graphicsBlock caseTable c) =
      (dst.filter (fun d => decide (¬ isExcluded caseTable d.Name))).flatMap
        (graphicsBlock caseTable c) := by
  induction dst with
  | nil => rfl
  | cons d rest ih =>
    by_cases hx : isExcluded caseTable d.Name
    · have hnil : graphicsBlock caseTable c d = [] := by
        have h' : ToLower caseTable d.Name = "" ∨ ToLower caseTable d.Name = "services" ∨
            ToLower caseTable d.Name = "console" := hx
        simp [graphicsBlock, graphicsLoop, h', State.initial]
      simp [List.flatMap_cons, hx, hnil, ih]
    · simp [List.flatMap_cons, hx, ih]

/-- C9. Emission order, for the collector built by `NewRemoteFx`. What a collection pass adds
to the channel is, in this order: the blocks of the network instances that the filter lets
through, in snapshot order, and then, when the graphics object decodes as well, the blocks of
the graphics instances that the filter lets through, in snapshot order. When the network
object does not decode nothing is added, and when only the graphics object does not decode the
network blocks alone are added. So every network metric precedes every graphics metric, and
the metrics of an earlier instance precede those of a later instance of the same object. -/
theorem emission_order (caseTable : Char → Char) (Namespace : String) (ctx : ScrapeContext)
    (st : State) :
    (Collect caseTable (NewRemoteFx Namespace).1 ctx st).state.sent =
      st.sent ++
        (match unmarshalObject perflibRemoteFxNetwork.decode
            (ctx.perfObjects "RemoteFX Network") with
          | .error _ => []
          | .ok dstN =>
            (dstN.filter (fun d => decide (¬ isExcluded caseTable d.Name))).flatMap
                (networkBlock caseTable (NewRemoteFx Namespace).1) ++
              (match unmarshalObject perflibRemoteFxGraphics.decode
                  (ctx.perfObjects "RemoteFX Graphics") with
                | .error _ => []
                | .ok dstG =>
                  (dstG.filter (fun d => decide (¬ isExcluded caseTable d.Name))).flatMap
                    (graphicsBlock caseTable (NewRemoteFx Namespace).1))) := by
  rw [Collect_sent caseTable Namespace ctx st]
  cases unmarshalObject perflibRemoteFxNetwork.decode (ctx.perfObjects "RemoteFX Network") with
  | error e => rfl
  | ok dstN =>
    cases unmarshalObject perflibRemoteFxGraphics.decode
        (ctx.perfObjects "RemoteFX Graphics") with
    | error e =>
      simp only [← networkBlocks_filter caseTable (NewRemoteFx Namespace).1 dstN]
    | ok dstG =>
      simp only [← networkBlocks_filter caseTable (NewRemoteFx Namespace).1 dstN,
        ← graphicsBlocks_filter caseTable (NewRemoteFx Namespace).1 dstG]

/-- C10. The descriptor table built by `NewRemoteFx`: the 28 metric names are pairwise
distinct; no descriptor belongs to both the network and the graphics list; the send statements
of the network loop use exactly the network descriptors, each once, and those of the graphics
loop exactly the graphics descriptors, each once; the field mapper of each object type pairs
each of its descriptors with one raw field; and the raw field names of one object type are
pairwise distinct. -/
theorem descriptor_table_is_injective (Namespace : String) :
    (((NewRemoteFx Namespace).1.network ++ (NewRemoteFx Namespace).1.graphics).map
      Desc.fqName).Nodup ∧
    ((NewRemoteFx Namespace).1.network ++ (NewRemoteFx Namespace).1.graphics).length = 28 ∧
    (∀ d ∈ (NewRemoteFx Namespace).1.network, d ∉ (NewRemoteFx Namespace).1.graphics) ∧
    (∀ d ∈ (NewRemoteFx Namespace).1.network,
      ∀ g ∈ (NewRemoteFx Namespace).1.graphics, d.fqName ≠ g.fqName) ∧
    (∀ d : perflibRemoteFxNetwork,
      (networkSends (NewRemoteFx Namespace).1 d).map Send.desc
        = (NewRemoteFx Namespace).1.network) ∧
    (∀ d : perflibRemoteFxGraphics,
      (graphicsSends (NewRemoteFx Namespace).1 d).map Send.desc
        = (NewRemoteFx Namespace).1.graphics) ∧
    (networkFieldMap (NewRemoteFx Namespace).1).map Prod.fst
      = (NewRemoteFx Namespace).1.network ∧
    (graphicsFieldMap (NewRemoteFx Namespace).1).map Prod.fst
      = (NewRemoteFx Namespace).1.graphics ∧
    ((networkFieldMap (NewRemoteFx Namespace).1).map Prod.snd).Nodup ∧
    ((graphicsFieldMap (NewRemoteFx Namespace).1).map Prod.snd).Nodup := by
  have hnames := NewRemoteFx_names_nodup Namespace
  have hdescs := NewRemoteFx_descs_nodup Namespace
  refine ⟨hnames, rfl, ?_, ?_, fun _ => rfl, fun _ => rfl, rfl, rfl, ?_, ?_⟩
  · intro d hd hg
    exact (List.nodup_append.mp hdescs).2.2 hd hg
  · intro d hd g hg hdg
    rw [List.map_append] at hnames
    exact (List.nodup_append.mp hnames).2.2 (List.mem_map_of_mem _ hd)
      (hdg ▸ List.mem_map_of_mem _ hg)
  · simp only [networkFieldMap, List.map_cons, List.map_nil]
    decide
  · simp only [graphicsFieldMap, List.map_cons, List.map_nil]
    decide

/-! ## The descriptors built by `NewRemoteFx` -/

theorem BuildFQName_of_nonempty (ns name : String) (hns : ns ≠ "") (hname : name ≠ "") :
    BuildFQName ns "remote_fx" name = ns ++ "_remote_fx_" ++ name := by
  have hsub : ("remote_fx" : String) ≠ "" := by decide
  unfold BuildFQName
  simp only [if_neg hname, hns, hsub, ne_eq, not_false_eq_true, and_self, if_true]
  apply String.ext
  simp only [String.data_append, List.append_assoc, List.cons_append, List.nil_append]

/-- C11. Every descriptor built by `NewRemoteFx` is named by `BuildFQName` from the namespace,
the subsystem `remote_fx` and its metric suffix, which for a non-empty namespace is the string
`<Namespace>_remote_fx_<suffix>`; every descriptor declares exactly the variable label
`session_name` and no constant labels; and `NewRemoteFx` returns no error. -/
theorem descriptors_are_namespaced_and_labelled (Namespace : String) :
    (NewRemoteFx Namespace).2 = none ∧
    (∀ d ∈ (NewRemoteFx Namespace).1.network ++ (NewRemoteFx Namespace).1.graphics,
      d.variableLabels = ["session_name"] ∧ d.constLabels = []) ∧
    (Namespace ≠ "" →
      ((NewRemoteFx Namespace).1.network ++ (NewRemoteFx Namespace).1.graphics).map Desc.fqName =
        [ "net_base_tcp_rrt", "net_base_udp_rrt", "net_current_tcp_bandwidth",
          "net_current_tcp_rtt", "net_current_udp_bandwidth", "net_current_udp_rtt",
          "net_fec_rate", "net_loss_rate", "net_retransmission_rate", "net_tcp_received_rate",
          "net_tcp_sent_rate", "net_total_received_rate", "net_total_sent_rate",
          "net_total_received_bytes", "net_total_sent_bytes",
          "net_udp_packets_received_persec", "net_udp_packets_sent_persec",
          "net_udp_received_rate", "net_udp_sent_rate",
          "gfx_average_encoding_time", "gfx_frame_quality",
          "gfx_frames_skipped_persec_insufficient_clt_res",
          "gfx_frames_skipped_persec_insufficient_net_res",
          "gfx_frames_skipped_persec_insufficient_srv_res", "gfx_graphics_compression_ratio",
          "gfx_input_frames_persec", "gfx_output_frames_persec",
          "gfx_source_frames_persec" ].map (fun s => Namespace ++ "_remote_fx_" ++ s)) := by
  refine ⟨rfl, ?_, ?_⟩
  · intro d hd
    simp only [RemoteFxCollector.network, RemoteFxCollector.graphics, NewRemoteFx, NewDesc,
      List.cons_append, List.nil_append, List.mem_cons, List.mem_singleton, List.not_mem_nil,
      or_false] at hd
    rcases hd with h | h | h | h | h | h | h | h | h | h | h | h | h | h | h | h | h | h | h |
      h | h | h | h | h | h | h | h | h <;> subst h <;> exact ⟨rfl, rfl⟩
  · intro hns
    rw [NewRemoteFx_names]
    apply List.map_congr_left
    intro s hs
    refine BuildFQName_of_nonempty Namespace s hns ?_
    rintro rfl
    revert hs
    decide

theorem descriptors_are_namespaced_and_labelled_witness :
    ((NewRemoteFx "wmi").1.network ++ (NewRemoteFx "wmi").1.graphics).map Desc.fqName =
      [ "net_base_tcp_rrt", "net_base_udp_rrt", "net_current_tcp_bandwidth",
        "net_current_tcp_rtt", "net_current_udp_bandwidth", "net_current_udp_rtt",
        "net_fec_rate", "net_loss_rate", "net_retransmission_rate", "net_tcp_received_rate",
        "net_tcp_sent_rate", "net_total_received_rate", "net_total_sent_rate",
        "net_total_received_bytes", "net_total_sent_bytes",
        "net_udp_packets_received_persec", "net_udp_packets_sent_persec",
        "net_udp_received_rate", "net_udp_sent_rate",
        "gfx_average_encoding_time", "gfx_frame_quality",
        "gfx_frames_skipped_persec_insufficient_clt_res",
        "gfx_frames_skipped_persec_insufficient_net_res",
        "gfx_frames_skipped_persec_insufficient_srv_res", "gfx_graphics_compression_ratio",
        "gfx_input_frames_persec", "gfx_output_frames_persec",
        "gfx_source_frames_persec" ].map (fun s => "wmi" ++ "_remote_fx_" ++ s) :=
  (descriptors_are_namespaced_and_labelled "wmi").2.2 (by decide)

/-! ## Passes do not depend on earlier passes -/

theorem Collect_outcome (caseTable : Char → Char) (Namespace : String) (ctx : ScrapeContext)
    (st : State) :
    (Collect caseTable (NewRemoteFx Namespace).1 ctx st).outcome =
      (match unmarshalObject perflibRemoteFxNetwork.decode
          (ctx.perfObjects "RemoteFX Network") with
        | .error e => .returned (some e)
        | .ok _ =>
          (match unmarshalObject perflibRemoteFxGraphics.decode
              (ctx.perfObjects "RemoteFX Graphics") with
            | .error e => .returned (some e)
            | .ok _ => .returned none)) := by
  have hc := NewRemoteFx_oneLabel Namespace
  cases hn : unmarshalObject perflibRemoteFxNetwork.decode
      (ctx.perfObjects "RemoteFX Network") with
  | error e => simp [Collect_network_error caseTable _ ctx st e hn]
  | ok dstN =>
    cases hg : unmarshalObject perflibRemoteFxGraphics.decode
        (ctx.perfObjects "RemoteFX Graphics") with
    | error e => simp [Collect_graphics_error caseTable _ hc ctx st dstN e hn hg]
    | ok dstG => simp [Collect_ok caseTable _ hc ctx st dstN dstG hn hg]

/-- C12. Determinism and statelessness, for the collector built by `NewRemoteFx`. Take two
collection passes whose contexts decode to the same RemoteFX Network result and the same
RemoteFX Graphics result, started in any two states, that is, after any earlier passes. They
end with the same outcome (the same error or none) and add the same metrics, in the same order,
to the channel, namely the metrics a pass from the initial state sends. Nothing but the two
decoded snapshots and the descriptor table enters the result; the collector is an argument of
`Collect` that no pass changes. -/
theorem passes_are_stateless (caseTable : Char → Char) (Namespace : String)
    (ctx1 ctx2 : ScrapeContext) (st1 st2 : State)
    (hn : unmarshalObject perflibRemoteFxNetwork.decode (ctx1.perfObjects "RemoteFX Network")
      = unmarshalObject perflibRemoteFxNetwork.decode (ctx2.perfObjects "RemoteFX Network"))
    (hg : unmarshalObject perflibRemoteFxGraphics.decode (ctx1.perfObjects "RemoteFX Graphics")
      = unmarshalObject perflibRemoteFxGraphics.decode (ctx2.perfObjects "RemoteFX Graphics")) :
    (Collect caseTable (NewRemoteFx Namespace).1 ctx1 st1).outcome
      = (Collect caseTable (NewRemoteFx Namespace).1 ctx2 st2).outcome ∧
    (Collect caseTable (NewRemoteFx Namespace).1 ctx1 st1).state.sent
      = st1.sent ++
        (Collect caseTable (NewRemoteFx Namespace).1 ctx1 State.initial).state.sent ∧
    (Collect caseTable (NewRemoteFx Namespace).1 ctx2 st2).state.sent
      = st2.sent ++
        (Collect caseTable (NewRemoteFx Namespace).1 ctx1 State.initial).state.sent := by
  refine ⟨?_, ?_, ?_⟩
  · rw [Collect_outcome, Collect_outcome, hn, hg]
  · rw [Collect_sent caseTable Namespace ctx1 st1,
      Collect_sent caseTable Namespace ctx1 State.initial]
    simp [State.initial]
  · rw [Collect_sent caseTable Namespace ctx2 st2,
      Collect_sent caseTable Namespace ctx1 State.initial, hn, hg]
    simp [State.initial]

theorem passes_are_stateless_witness :
    (Collect noCaseTable (NewRemoteFx "wmi").1
        (sampleContext (.ok [sampleNetwork "RDP-Tcp#0" ⟨7⟩])
          (.ok [sampleGraphics "RDP-Tcp#0" ⟨3⟩])) State.initial).outcome
      = (Collect noCaseTable (NewRemoteFx "wmi").1
        (sampleContextLoose (.ok [sampleNetwork "RDP-Tcp#0" ⟨7⟩])
          (.ok [sampleGraphics "RDP-Tcp#0" ⟨3⟩]))
        (Collect noCaseTable (NewRemoteFx "wmi").1
          (sampleContext (.ok [sampleNetwork "Other" ⟨1⟩]) (.error (.SourceUnavailable "x")))
          State.initial).state).outcome ∧
    (Collect noCaseTable (NewRemoteFx "wmi").1
        (sampleContext (.ok [sampleNetwork "RDP-Tcp#0" ⟨7⟩])
          (.ok [sampleGraphics "RDP-Tcp#0" ⟨3⟩])) State.initial).state.sent
      = State.initial.sent ++
        (Collect noCaseTable (NewRemoteFx "wmi").1
          (sampleContext (.ok [sampleNetwork "RDP-Tcp#0" ⟨7⟩])
            (.ok [sampleGraphics "RDP-Tcp#0" ⟨3⟩])) State.initial).state.sent ∧
    (Collect noCaseTable (NewRemoteFx "wmi").1
        (sampleContextLoose (.ok [sampleNetwork "RDP-Tcp#0" ⟨7⟩])
          (.ok [sampleGraphics "RDP-Tcp#0" ⟨3⟩]))
        (Collect noCaseTable (NewRemoteFx "wmi").1
          (sampleContext (.ok [sampleNetwork "Other" ⟨1⟩]) (.error (.SourceUnavailable "x")))
          State.initial).state).state.sent
      = (Collect noCaseTable (NewRemoteFx "wmi").1
          (sampleContext (.ok [sampleNetwork "Other" ⟨1⟩]) (.error (.SourceUnavailable "x")))
          State.initial).state.sent ++
        (Collect noCaseTable (NewRemoteFx "wmi").1
          (sampleContext (.ok [sampleNetwork "RDP-Tcp#0" ⟨7⟩])
            (.ok [sampleGraphics "RDP-Tcp#0" ⟨3⟩])) State.initial).state.sent :=
  passes_are_stateless noCaseTable "wmi"
    (sampleContext (.ok [sampleNetwork "RDP-Tcp#0" ⟨7⟩]) (.ok [sampleGraphics "RDP-Tcp#0" ⟨3⟩]))
    (sampleContextLoose (.ok [sampleNetwork "RDP-Tcp#0" ⟨7⟩])
      (.ok [sampleGraphics "RDP-Tcp#0" ⟨3⟩]))
    State.initial
    (Collect noCaseTable (NewRemoteFx "wmi").1
      (sampleContext (.ok [sampleNetwork "Other" ⟨1⟩]) (.error (.SourceUnavailable "x")))
      State.initial).state
    rfl rfl

/-! ## The frames-skipped counters -/

theorem graphicsSends_value_by_name (Namespace : String) (d : perflibRemoteFxGraphics)
    (m : Metric) (hm : m ∈ (graphicsSends (NewRemoteFx Namespace).1 d).map Send.metric)
    (suffix : String) (hsuffix : suffix ≠ "")
    (hname : m.desc.fqName = BuildFQName Namespace "remote_fx" suffix) :
    (suffix, m.val) ∈
      [ ("gfx_average_encoding_time", d.AverageEncodingTime),
        ("gfx_frame_quality", d.FrameQuality),
        ("gfx_frames_skipped_persec_insufficient_clt_res",
          d.FramesSkippedPerSecondInsufficientClientResources),
        ("gfx_frames_skipped_persec_insufficient_net_res",
          d.FramesSkippedPerSecondInsufficientNetworkResources),
        ("gfx_frames_skipped_persec_insufficient_srv_res",
          d.FramesSkippedPerSecondInsufficientServerResources),
        ("gfx_graphics_compression_ratio", d.GraphicsCompressionratio),
        ("gfx_input_frames_persec", d.InputFramesPerSecond),
        ("gfx_output_frames_persec", d.OutputFramesPerSecond),
        ("gfx_source_frames_persec", d.SourceFramesPerSecond) ] := by
  simp only [graphicsSends, Send.metric, List.map_cons, List.map_nil, List.mem_cons,
    List.mem_singleton, List.not_mem_nil, or_false] at hm
  rcases hm with h | h | h | h | h | h | h | h | h <;> subst h <;>
    (simp only [NewRemoteFx, NewDesc] at hname
     have hs := BuildFQName_injective Namespace _ _ (by decide) hsuffix hname
     subst hs
     simp)

/-- C13. The frames-skipped association as implemented, for the collector built by
`NewRemoteFx` and a graphics instance `i` that decodes and that the filter lets through. With
`vc`, `vs`, `vn` the raw fields `Frames Skipped/Second - Insufficient Client Resources`,
`... Server Resources` and `... Network Resources` of `i`: the metric named
`gfx_frames_skipped_persec_insufficient_clt_res` is sent with the value `vs`, the metric named
`gfx_frames_skipped_persec_insufficient_srv_res` with the value `vc`, the metric named
`gfx_frames_skipped_persec_insufficient_net_res` with the value `vn`, and these are the only
values sent under those names; so when `vc` and `vs` differ, no metric named
`..._clt_res` carries the client raw field `vc`. -/
theorem frames_skipped_client_and_server_are_transposed (caseTable : Char → Char)
    (Namespace : String) (i : Instance) (d : perflibRemoteFxGraphics) (vc vs vn : Float64)
    (hd : perflibRemoteFxGraphics.decode i = .ok d) (hx : ¬ isExcluded caseTable i.name)
    (hvc : i.fields.lookup "Frames Skipped/Second - Insufficient Client Resources" = some vc)
    (hvs : i.fields.lookup "Frames Skipped/Second - Insufficient Server Resources" = some vs)
    (hvn : i.fields.lookup "Frames Skipped/Second - Insufficient Network Resources" = some vn) :
    ({ desc := (NewRemoteFx Namespace).1.FramesSkippedPerSecondInsufficientClientResources,
       valType := .CounterValue, val := vs, labelValues := [i.name] }
        ∈ graphicsBlock caseTable (NewRemoteFx Namespace).1 d ∧
      (NewRemoteFx Namespace).1.FramesSkippedPerSecondInsufficientClientResources.fqName
        = BuildFQName Namespace "remote_fx" "gfx_frames_skipped_persec_insufficient_clt_res") ∧
    ({ desc := (NewRemoteFx Namespace).1.FramesSkippedPerSecondInsufficientServerResources,
       valType := .CounterValue, val := vc, labelValues := [i.name] }
        ∈ graphicsBlock caseTable (NewRemoteFx Namespace).1 d ∧
      (NewRemoteFx Namespace).1.FramesSkippedPerSecondInsufficientServerResources.fqName
        = BuildFQName Namespace "remote_fx" "gfx_frames_skipped_persec_insufficient_srv_res") ∧
    ({ desc := (NewRemoteFx Namespace).1.FramesSkippedPerSecondInsufficientNetworkResources,
       valType := .CounterValue, val := vn, labelValues := [i.name] }
        ∈ graphicsBlock caseTable (NewRemoteFx Namespace).1 d ∧
      (NewRemoteFx Namespace).1.FramesSkippedPerSecondInsufficientNetworkResources.fqName
        = BuildFQName Namespace "remote_fx" "gfx_frames_skipped_persec_insufficient_net_res") ∧
    (∀ m ∈ graphicsBlock caseTable (NewRemoteFx Namespace).1 d,
      (m.desc.fqName = BuildFQName Namespace "remote_fx"
          "gfx_frames_skipped_persec_insufficient_clt_res" → m.val = vs) ∧
      (m.desc.fqName = BuildFQName Namespace "remote_fx"
          "gfx_frames_skipped_persec_insufficient_srv_res" → m.val = vc) ∧
      (m.desc.fqName = BuildFQName Namespace "remote_fx"
          "gfx_frames_skipped_persec_insufficient_net_res" → m.val = vn)) ∧
    (vc ≠ vs →
      ∀ m ∈ graphicsBlock caseTable (NewRemoteFx Namespace).1 d,
        m.desc.fqName = BuildFQName Namespace "remote_fx"
          "gfx_frames_skipped_persec_insufficient_clt_res" → m.val ≠ vc) := by
  have hc := NewRemoteFx_oneLabel Namespace
  obtain ⟨hname, _, _, h2, h3, h4, _, _, _, _⟩ := graphicsDecode_ok i d hd
  rw [hvs] at h2
  rw [hvn] at h3
  rw [hvc] at h4
  cases h2
  cases h3
  cases h4
  rw [← hname] at hx
  rw [graphicsBlock_included caseTable _ hc d hx, ← hname]
  have huniq : ∀ m ∈ (graphicsSends (NewRemoteFx Namespace).1 d).map Send.metric,
      (m.desc.fqName = BuildFQName Namespace "remote_fx"
          "gfx_frames_skipped_persec_insufficient_clt_res" →
        m.val = d.FramesSkippedPerSecondInsufficientClientResources) ∧
      (m.desc.fqName = BuildFQName Namespace "remote_fx"
          "gfx_frames_skipped_persec_insufficient_srv_res" →
        m.val = d.FramesSkippedPerSecondInsufficientServerResources) ∧
      (m.desc.fqName = BuildFQName Namespace "remote_fx"
          "gfx_frames_skipped_persec_insufficient_net_res" →
        m.val = d.FramesSkippedPerSecondInsufficientNetworkResources) := by
    intro m hm
    refine ⟨fun h => ?_, fun h => ?_, fun h => ?_⟩
    · have := graphicsSends_value_by_name Namespace d m hm _ (by decide) h
      simpa using this
    · have := graphicsSends_value_by_name Namespace d m hm _ (by decide) h
      simpa using this
    · have := graphicsSends_value_by_name Namespace d m hm _ (by decide) h
      simpa using this
  refine ⟨⟨?_, rfl⟩, ⟨?_, rfl⟩, ⟨?_, rfl⟩, huniq, ?_⟩
  · simp [graphicsSends, Send.metric]
  · simp [graphicsSends, Send.metric]
  · simp [graphicsSends, Send.metric]
  · intro hne m hm hn hval
    exact hne (((huniq m hm).1 hn).symm.trans hval).symm

theorem frames_skipped_client_and_server_are_transposed_witness :
    ({ desc := (NewRemoteFx "wmi").1.FramesSkippedPerSecondInsufficientClientResources,
       valType := .CounterValue, val := ⟨2⟩, labelValues := ["RDP-Tcp#0"] }
        ∈ graphicsBlock noCaseTable (NewRemoteFx "wmi").1 (sampleGraphicsDecoded "RDP-Tcp#0" ⟨3⟩) ∧
      (NewRemoteFx "wmi").1.FramesSkippedPerSecondInsufficientClientResources.fqName
        = "wmi_remote_fx_gfx_frames_skipped_persec_insufficient_clt_res") ∧
    ({ desc := (NewRemoteFx "wmi").1.FramesSkippedPerSecondInsufficientServerResources,
       valType := .CounterValue, val := ⟨1⟩, labelValues := ["RDP-Tcp#0"] }
        ∈ graphicsBlock noCaseTable (NewRemoteFx "wmi").1 (sampleGraphicsDecoded "RDP-Tcp#0" ⟨3⟩) ∧
      (NewRemoteFx "wmi").1.FramesSkippedPerSecondInsufficientServerResources.fqName
        = "wmi_remote_fx_gfx_frames_skipped_persec_insufficient_srv_res") ∧
    (∀ m ∈ graphicsBlock noCaseTable (NewRemoteFx "wmi").1 (sampleGraphicsDecoded "RDP-Tcp#0" ⟨3⟩),
        m.desc.fqName = "wmi_remote_fx_gfx_frames_skipped_persec_insufficient_clt_res" →
          m.val ≠ ⟨1⟩) :=
  ⟨(frames_skipped_client_and_server_are_transposed noCaseTable "wmi"
      (sampleGraphics "RDP-Tcp#0" ⟨3⟩) (sampleGraphicsDecoded "RDP-Tcp#0" ⟨3⟩) ⟨1⟩ ⟨2⟩ ⟨3⟩
      rfl (by decide) rfl rfl rfl).1,
   (frames_skipped_client_and_server_are_transposed noCaseTable "wmi"
      (sampleGraphics "RDP-Tcp#0" ⟨3⟩) (sampleGraphicsDecoded "RDP-Tcp#0" ⟨3⟩) ⟨1⟩ ⟨2⟩ ⟨3⟩
      rfl (by decide) rfl rfl rfl).2.1,
   (frames_skipped_client_and_server_are_transposed noCaseTable "wmi"
      (sampleGraphics "RDP-Tcp#0" ⟨3⟩) (sampleGraphicsDecoded "RDP-Tcp#0" ⟨3⟩) ⟨1⟩ ⟨2⟩ ⟨3⟩
      rfl (by decide) rfl rfl rfl).2.2.2.2 (by decide)⟩

/-! ## The size of a successful pass, panics, and the filter -/

/-- C14. For the collector built by `NewRemoteFx`, when both objects decode, `Collect` returns
no error and adds to the channel 19 metrics for every network instance the filter lets through
plus 9 for every graphics instance it lets through, 19 and 9 being the numbers of network and
graphics descriptors. A snapshot that is empty, or in which the filter skips every instance,
adds nothing and causes no error. -/
theorem successful_pass_sample_count (caseTable : Char → Char) (Namespace : String)
    (ctx : ScrapeContext) (st : State) (dstN : List perflibRemoteFxNetwork)
    (dstG : List perflibRemoteFxGraphics)
    (hn : unmarshalObject perflibRemoteFxNetwork.decode (ctx.perfObjects "RemoteFX Network")
      = .ok dstN)
    (hg : unmarshalObject perflibRemoteFxGraphics.decode (ctx.perfObjects "RemoteFX Graphics")
      = .ok dstG) :
    (Collect caseTable (NewRemoteFx Namespace).1 ctx st).outcome = .returned none ∧
    (Collect caseTable (NewRemoteFx Namespace).1 ctx st).state.sent.length =
      st.sent.length +
        (NewRemoteFx Namespace).1.network.length *
          (dstN.filter (fun d => decide (¬ isExcluded caseTable d.Name))).length +
        (NewRemoteFx Namespace).1.graphics.length *
          (dstG.filter (fun d => decide (¬ isExcluded caseTable d.Name))).length ∧
    (NewRemoteFx Namespace).1.network.length = 19 ∧
    (NewRemoteFx Namespace).1.graphics.length = 9 ∧
    ((∀ d ∈ dstN, isExcluded caseTable d.Name) → (∀ d ∈ dstG, isExcluded caseTable d.Name) →
      (Collect caseTable (NewRemoteFx Namespace).1 ctx st).state.sent = st.sent) := by
  have hc := NewRemoteFx_oneLabel Namespace
  have hlenN : (NewRemoteFx Namespace).1.network.length = 19 := rfl
  have hlenG : (NewRemoteFx Namespace).1.graphics.length = 9 := rfl
  rw [Collect_ok caseTable _ hc ctx st dstN dstG hn hg]
  refine ⟨rfl, ?_, hlenN, hlenG, ?_⟩
  · simp only [List.length_append, networkBlocks_length caseTable _ hc dstN,
      graphicsBlocks_length caseTable _ hc dstG, hlenN, hlenG]
  · intro hN hG
    have hNnil : dstN.filter (fun d => decide (¬ isExcluded caseTable d.Name)) = [] := by
      rw [List.filter_eq_nil_iff]
      intro d hd
      simp [hN d hd]
    have hGnil : dstG.filter (fun d => decide (¬ isExcluded caseTable d.Name)) = [] := by
      rw [List.filter_eq_nil_iff]
      intro d hd
      simp [hG d hd]
    have h1 := networkBlocks_length caseTable _ hc dstN
    have h2 := graphicsBlocks_length caseTable _ hc dstG
    rw [hNnil] at h1
    rw [hGnil] at h2
    simp only [List.length_nil, Nat.mul_zero] at h1 h2
    simp only [List.length_eq_zero] at h1 h2
    simp [h1, h2]

theorem successful_pass_sample_count_witness :
    (Collect noCaseTable (NewRemoteFx "wmi").1
        (sampleContext
          (.ok [sampleNetwork "RDP-Tcp#0" ⟨7⟩, sampleNetwork "Console" ⟨9⟩,
            sampleNetwork "RDP-Tcp#1" ⟨8⟩])
          (.ok [sampleGraphics "RDP-Tcp#0" ⟨3⟩])) State.initial).state.sent.length =
      State.initial.sent.length +
        (NewRemoteFx "wmi").1.network.length *
          ([sampleNetworkDecoded "RDP-Tcp#0" ⟨7⟩, sampleNetworkDecoded "Console" ⟨9⟩,
            sampleNetworkDecoded "RDP-Tcp#1" ⟨8⟩].filter
              (fun d => decide (¬ isExcluded noCaseTable d.Name))).length +
        (NewRemoteFx "wmi").1.graphics.length *
          ([sampleGraphicsDecoded "RDP-Tcp#0" ⟨3⟩].filter
              (fun d => decide (¬ isExcluded noCaseTable d.Name))).length ∧
    (Collect noCaseTable (NewRemoteFx "wmi").1
        (sampleContext (.ok [sampleNetwork "Services" ⟨9⟩]) (.ok [])) State.initial).state.sent
      = State.initial.sent :=
  ⟨(successful_pass_sample_count noCaseTable "wmi"
      (sampleContext
        (.ok [sampleNetwork "RDP-Tcp#0" ⟨7⟩, sampleNetwork "Console" ⟨9⟩,
          sampleNetwork "RDP-Tcp#1" ⟨8⟩])
        (.ok [sampleGraphics "RDP-Tcp#0" ⟨3⟩])) State.initial
      [sampleNetworkDecoded "RDP-Tcp#0" ⟨7⟩, sampleNetworkDecoded "Console" ⟨9⟩,
        sampleNetworkDecoded "RDP-Tcp#1" ⟨8⟩]
      [sampleGraphicsDecoded "RDP-Tcp#0" ⟨3⟩] rfl rfl).2.1,
   (successful_pass_sample_count noCaseTable "wmi"
      (sampleContext (.ok [sampleNetwork "Services" ⟨9⟩]) (.ok [])) State.initial
      [sampleNetworkDecoded "Services" ⟨9⟩] [] rfl rfl).2.2.2.2 (by decide) (by decide)⟩

/-- A descriptor with another number of variable labels makes the first send statement panic,
so the arity check of `NewConstMetric` is a live branch of the embedding. -/
theorem mislabelled_collector_panics :
    Collect noCaseTable mislabelledCollector
        (sampleContext (.ok [sampleNetwork "RDP-Tcp#0" ⟨7⟩]) (.ok [])) State.initial
      = ⟨{ sent := [], decoded := ["RemoteFX Network"] },
          .panicked "inconsistent label cardinality"⟩ := by
  decide

/-- C15. For the collector built by `NewRemoteFx`, every send statement of either loop passes
exactly one label value, the instance name, to a descriptor with exactly one variable label, so
`NewConstMetric` succeeds with the metric of that statement; hence no run of either loop and no
run of `Collect` ends in a panic, for every snapshot, every instance name and every state. -/
theorem sample_construction_never_panics (caseTable : Char → Char) (Namespace : String) :
    (∀ (d : perflibRemoteFxNetwork), ∀ s ∈ networkSends (NewRemoteFx Namespace).1 d,
      s.labelValues = [d.Name] ∧ s.desc.variableLabels.length = 1 ∧
      NewConstMetric s.desc s.valueType s.value s.labelValues = .ok s.metric) ∧
    (∀ (d : perflibRemoteFxGraphics), ∀ s ∈ graphicsSends (NewRemoteFx Namespace).1 d,
      s.labelValues = [d.Name] ∧ s.desc.variableLabels.length = 1 ∧
      NewConstMetric s.desc s.valueType s.value s.labelValues = .ok s.metric) ∧
    (∀ (dst : List perflibRemoteFxNetwork) (st : State) (msg : String),
      (networkLoop caseTable (NewRemoteFx Namespace).1 dst st).outcome ≠ .panicked msg) ∧
    (∀ (dst : List perflibRemoteFxGraphics) (st : State) (msg : String),
      (graphicsLoop caseTable (NewRemoteFx Namespace).1 dst st).outcome ≠ .panicked msg) ∧
    (∀ (ctx : ScrapeContext) (st : State) (msg : String),
      (Collect caseTable (NewRemoteFx Namespace).1 ctx st).outcome ≠ .panicked msg) := by
  have hc := NewRemoteFx_oneLabel Namespace
  refine ⟨?_, ?_, ?_, ?_, ?_⟩
  · intro d s hs
    have harity := networkSends_arity _ hc d s hs
    have hlabels : s.labelValues = [d.Name] := by
      simp only [networkSends, List.mem_cons, List.mem_singleton, List.not_mem_nil,
        or_false] at hs
      rcases hs with h | h | h | h | h | h | h | h | h | h | h | h | h | h | h | h | h | h | h <;>
        rw [h]
    refine ⟨hlabels, ?_, ?_⟩
    · rw [← harity, hlabels]; rfl
    · simp [NewConstMetric, harity, Send.metric]
  · intro d s hs
    have harity := graphicsSends_arity _ hc d s hs
    have hlabels : s.labelValues = [d.Name] := by
      simp only [graphicsSends, List.mem_cons, List.mem_singleton, List.not_mem_nil,
        or_false] at hs
      rcases hs with h | h | h | h | h | h | h | h | h <;> rw [h]
    refine ⟨hlabels, ?_, ?_⟩
    · rw [← harity, hlabels]; rfl
    · simp [NewConstMetric, harity, Send.metric]
  · intro dst st msg
    rw [networkLoop_eq caseTable _ hc dst st]
    simp
  · intro dst st msg
    rw [graphicsLoop_eq caseTable _ hc dst st]
    simp
  · intro ctx st msg
    rw [Collect_outcome caseTable Namespace ctx st]
    cases unmarshalObject perflibRemoteFxNetwork.decode
        (ctx.perfObjects "RemoteFX Network") with
    | error e => simp
    | ok dstN =>
      cases unmarshalObject perflibRemoteFxGraphics.decode
          (ctx.perfObjects "RemoteFX Graphics") with
      | error e => simp
      | ok dstG => simp

/-- C16. The filter, for the collector built by `NewRemoteFx`. Either loop sends nothing for an
instance exactly when the lower-cased name is equal, as a whole string, to `""`, `"services"`
or `"console"`, so a network instance and a graphics instance of the same name are both skipped
or both let through; an instance that is let through yields a full block, 19 network or 9
graphics metrics; and the names `"console "`, `" services"` and `"Console#1"` are let through
under every case table. -/
theorem filter_is_exact_and_shared (caseTable : Char → Char) (Namespace : String) :
    (∀ d : perflibRemoteFxNetwork,
      networkBlock caseTable (NewRemoteFx Namespace).1 d = [] ↔
        (ToLower caseTable d.Name = "" ∨ ToLower caseTable d.Name = "services" ∨
          ToLower caseTable d.Name = "console")) ∧
    (∀ d : perflibRemoteFxGraphics,
      graphicsBlock caseTable (NewRemoteFx Namespace).1 d = [] ↔
        (ToLower caseTable d.Name = "" ∨ ToLower caseTable d.Name = "services" ∨
          ToLower caseTable d.Name = "console")) ∧
    (∀ (dN : perflibRemoteFxNetwork) (dG : perflibRemoteFxGraphics), dN.Name = dG.Name →
      (networkBlock caseTable (NewRemoteFx Namespace).1 dN = [] ↔
        graphicsBlock caseTable (NewRemoteFx Namespace).1 dG = [])) ∧
    (∀ d : perflibRemoteFxNetwork, ¬ isExcluded caseTable d.Name →
      (networkBlock caseTable (NewRemoteFx Namespace).1 d).length = 19) ∧
    (∀ d : perflibRemoteFxGraphics, ¬ isExcluded caseTable d.Name →
      (graphicsBlock caseTable (NewRemoteFx Namespace).1 d).length = 9) ∧
    (¬ isExcluded caseTable "console " ∧ ¬ isExcluded caseTable " services" ∧
      ¬ isExcluded caseTable "Console#1") := by
  have hc := NewRemoteFx_oneLabel Namespace
  have hN : ∀ d : perflibRemoteFxNetwork,
      networkBlock caseTable (NewRemoteFx Namespace).1 d = [] ↔ isExcluded caseTable d.Name := by
    intro d
    rw [networkBlock_eq caseTable _ hc d]
    by_cases hx : isExcluded caseTable d.Name
    · simp [hx]
    · simp [hx, networkSends]
  have hG : ∀ d : perflibRemoteFxGraphics,
      graphicsBlock caseTable (NewRemoteFx Namespace).1 d = [] ↔ isExcluded caseTable d.Name := by
    intro d
    rw [graphicsBlock_eq caseTable _ hc d]
    by_cases hx : isExcluded caseTable d.Name
    · simp [hx]
    · simp [hx, graphicsSends]
  refine ⟨hN, hG, ?_, ?_, ?_, ?_, ?_, ?_⟩
  · intro dN dG hname
    rw [hN dN, hG dG, hname]
  · intro d hx
    rw [networkBlock_included caseTable _ hc d hx]
    rfl
  · intro d hx
    rw [graphicsBlock_included caseTable _ hc d hx]
    rfl
  · unfold isExcluded
    rw [show ToLower caseTable "console " = "console " from rfl]
    decide
  · unfold isExcluded
    rw [show ToLower caseTable " services" = " services" from rfl]
    decide
  · unfold isExcluded
    rw [show ToLower caseTable "Console#1" = "console#1" from rfl]
    decide

theorem filter_is_exact_and_shared_witness :
    (networkBlock noCaseTable (NewRemoteFx "wmi").1
        (sampleNetworkDecoded "console " ⟨7⟩)).length = 19 ∧
    (graphicsBlock noCaseTable (NewRemoteFx "wmi").1
        (sampleGraphicsDecoded " services" ⟨3⟩)).length = 9 ∧
    (networkBlock noCaseTable (NewRemoteFx "wmi").1
        (sampleNetworkDecoded "Console#1" ⟨7⟩)).length = 19 ∧
    (networkBlock noCaseTable (NewRemoteFx "wmi").1 (sampleNetworkDecoded "CONSOLE" ⟨7⟩) = [] ↔
      graphicsBlock noCaseTable (NewRemoteFx "wmi").1 (sampleGraphicsDecoded "CONSOLE" ⟨3⟩)
        = []) :=
  ⟨(filter_is_exact_and_shared noCaseTable "wmi").2.2.2.1
      (sampleNetworkDecoded "console " ⟨7⟩) (by decide),
   (filter_is_exact_and_shared noCaseTable "wmi").2.2.2.2.1
      (sampleGraphicsDecoded " services" ⟨3⟩) (by decide),
   (filter_is_exact_and_shared noCaseTable "wmi").2.2.2.1
      (sampleNetworkDecoded "Console#1" ⟨7⟩) (by decide),
   (filter_is_exact_and_shared noCaseTable "wmi").2.2.1
      (sampleNetworkDecoded "CONSOLE" ⟨7⟩) (sampleGraphicsDecoded "CONSOLE" ⟨3⟩) rfl⟩

end Collector
